import Mathlib

/-!
Shallow embedding of the gauche entity-simulation core (src/src of the
repository) and proofs about it.

Conventions of the embedding:
* f32 quantities that the simulation logic branches on (positions,
  cooldowns, counters) are embedded as rationals; every value the embedded
  code paths produce is exactly representable, and the comparisons used by
  the code (with 0, with cooldown intervals, equality of half-integer grid
  centres) agree with the f32 computation on those values.
* u32/u8 quantities (health, item counts, tile hp) are embedded as Nat;
  the code only ever subtracts them with an explicit guard or with
  saturating_sub, both of which coincide with truncated Nat subtraction.
* Vec2::as_ivec2 truncates toward zero; truncQ below is that operation.
* Rust Vec indexing that the code always performs in bounds is embedded
  with Option-returning lookups; a usize cast of a negative i32 produces a
  huge index, hence an out-of-bounds lookup, which the embedding renders
  as a lookup at a negative integer returning none.
* Purely audio/visual side effects (sound cues, particles, the f32 shake
  of tiles) mutate no state the simulation ever reads back; they are
  embedded as the identity where the call sites require it, and noted at
  each such place.
-/

abbrev Vec2 := ℚ × ℚ

abbrev IVec2 := ℤ × ℤ

/-- Truncation toward zero, the semantics of f32-to-i32 casts (Vec2::as_ivec2). -/
def truncQ (q : ℚ) : ℤ := if 0 ≤ q then ⌊q⌋ else -⌊-q⌋

def truncV (v : Vec2) : IVec2 := (truncQ v.1, truncQ v.2)

/-- Kernel-evaluable rational addition (the Rat field-operation externs do
not unfold in the kernel; mkRat does); equal to + on ℚ. -/
def qadd (a b : ℚ) : ℚ := mkRat (a.num * b.den + b.num * a.den) (a.den * b.den)

/-- Kernel-evaluable rational subtraction; equal to - on ℚ. -/
def qsub (a b : ℚ) : ℚ := mkRat (a.num * b.den - b.num * a.den) (a.den * b.den)

/-- Kernel-evaluable rational multiplication; equal to * on ℚ. -/
def qmul (a b : ℚ) : ℚ := mkRat (a.num * b.num) (a.den * b.den)

/-- Center of a grid tile: target.as_vec2() + Vec2::splat(0.5), written so
the kernel can evaluate it. -/
def tile_center (p : IVec2) : Vec2 := (mkRat (2 * p.1 + 1) 2, mkRat (2 * p.2 + 1) 2)

/-- Read a list at a signed index; negative indices (the image of negative
i32 values under the usize cast) are out of bounds. -/
def getZ (l : List α) (i : ℤ) : Option α := if i < 0 then none else l[i.toNat]?

/-- Update a list at an index when it exists, leave it unchanged otherwise
(the behavior of the bounds-checked get_mut chains in the source). -/
def updNat (l : List α) (i : Nat) (f : α → α) : List α :=
  match l[i]? with
  | some a => l.set i (f a)
  | none => l

def updZ (l : List α) (i : ℤ) (f : α → α) : List α :=
  if i < 0 then l else updNat l i.toNat f

/-! ## Items and inventories (src/item.rs, src/inventory.rs) -/

/-- Item type tags; the six variants dispatched by use_item_internal_lookup
in src/item_use.rs (the item.rs in the tree is an older iteration missing
ConductorHat). -/
inductive ItemType
  | Wall
  | Medkit
  | Bandage
  | Bandaid
  | Fist
  | ConductorHat
deriving DecidableEq, Repr

/-- Item stack state; the fields of item.rs read or written by the embedded
code paths (name, description, sprite and the range fields feed only the
external UI/audio/graphics services or unembedded effect functions). -/
structure Item where
  type_ : ItemType
  marked_for_destruction : Bool
  usable : Bool
  max_count : Nat
  count : Nat
  consume_on_use : Bool
  use_cooldown : ℚ
  use_cooldown_countdown : ℚ
deriving DecidableEq, Repr

/-- Item::is_stackable: max_count > 1. -/
def Item.is_stackable (it : Item) : Bool := decide (1 < it.max_count)

/-- An inventory slot entry (inventory.rs InvEntry). -/
structure InvEntry where
  index : Nat
  item : Item
deriving DecidableEq, Repr

/-- Inventory (inventory.rs). -/
structure Inventory where
  entries : List InvEntry
  selected_index : Nat
deriving DecidableEq, Repr

/-- MAX_SLOTS from inventory.rs. -/
def MAX_SLOTS : Nat := 10

/-- Amount moved from the incoming stack into a compatible entry:
min(space available, incoming count). -/
def transfer_amount (e : InvEntry) (it : Item) : Nat :=
  min (e.item.max_count - e.item.count) it.count

def stack_entry_upd (e : InvEntry) (amt : Nat) : InvEntry :=
  { e with item := { e.item with count := e.item.count + amt } }

def stack_item_upd (it : Item) (amt : Nat) : Item :=
  { it with count := it.count - amt }

/-- Phase 1 of Inventory::insert, the iter_mut stacking loop: merge the
incoming stack into every compatible, non-full stack in slot order.  The
Bool records whether the loop hit the early return (the entire incoming
count was absorbed); the remaining entries are then left untouched, as in
the source. -/
def stack_loop : List InvEntry → Item → List InvEntry × Item × Bool
  | [], it => ([], it, false)
  | e :: rest, it =>
    if e.item.type_ = it.type_ ∧ e.item.count < e.item.max_count then
      if (stack_item_upd it (transfer_amount e it)).count = 0 then
        (stack_entry_upd e (transfer_amount e it) :: rest,
         stack_item_upd it (transfer_amount e it), true)
      else
        (stack_entry_upd e (transfer_amount e it)
            :: (stack_loop rest (stack_item_upd it (transfer_amount e it))).1,
         (stack_loop rest (stack_item_upd it (transfer_amount e it))).2.1,
         (stack_loop rest (stack_item_upd it (transfer_amount e it))).2.2)
    else
      (e :: (stack_loop rest it).1, (stack_loop rest it).2.1, (stack_loop rest it).2.2)

/-- Phase 3 of Inventory::insert: position of the selected entry plus the
in-place item replacement, expressed as first-occurrence recursion. -/
def swap_selected (sel : Nat) (new_item : Item) : List InvEntry → Option (Item × List InvEntry)
  | [] => none
  | e :: rest =>
    if e.index = sel then some (e.item, { e with item := new_item } :: rest)
    else
      match swap_selected sel new_item rest with
      | some (old, rest1) => some (old, e :: rest1)
      | none => none

/-- Keep-sorted step of the source (entries.sort_by_key on the slot index). -/
def sort_by_index (l : List InvEntry) : List InvEntry :=
  l.mergeSort (fun a b => decide (a.index ≤ b.index))

/-- Phase 3 of Inventory::insert (inventory full or no empty slot): swap
with the selected slot when it holds an entry, otherwise give the item
back (the failsafe at the end of the source). -/
def insert_swap (sel : Nat) (it1 : Item) (entries1 : List InvEntry) :
    Option Item × List InvEntry :=
  match swap_selected sel it1 entries1 with
  | some (old, entries2) => (some old, entries2)
  | none => (some it1, entries1)

/-- Phase 2 of Inventory::insert: when not full, place the remainder into
the selected slot if empty, else into the first empty slot; fall through
to the swap phase otherwise. -/
def insert_phase2 (sel : Nat) (entries1 : List InvEntry) (it1 : Item) :
    Option Item × List InvEntry :=
  if ¬ MAX_SLOTS ≤ entries1.length then
    if ¬ entries1.any (fun e => decide (e.index = sel)) then
      (none, sort_by_index (entries1 ++ [⟨sel, it1⟩]))
    else
      match (List.range MAX_SLOTS).find? (fun i => ¬ entries1.any (fun e => decide (e.index = i))) with
      | some slot_index => (none, sort_by_index (entries1 ++ [⟨slot_index, it1⟩]))
      | none => insert_swap sel it1 entries1
  else insert_swap sel it1 entries1

/-- What comes after the stacking loop: the early return when the loop
absorbed everything, else phase 2. -/
def insert_after_stacking (sel : Nat) (entries1 : List InvEntry) (it1 : Item) (done : Bool) :
    Option Item × List InvEntry :=
  if done then (none, entries1)
  else insert_phase2 sel entries1 it1

/-- Result of phase 1: the stacking loop runs only for stackable items. -/
def stack_result (inv : Inventory) (item_to_add : Item) : List InvEntry × Item × Bool :=
  if item_to_add.is_stackable then stack_loop inv.entries item_to_add
  else (inv.entries, item_to_add, false)

/-- Inventory::insert.  Returns the displaced/un-addable item (if any) and
the updated inventory. -/
def Inventory.insert (inv : Inventory) (item_to_add : Item) : Option Item × Inventory :=
  ((insert_after_stacking inv.selected_index (stack_result inv item_to_add).1
      (stack_result inv item_to_add).2.1 (stack_result inv item_to_add).2.2).1,
   { inv with entries := ((insert_after_stacking inv.selected_index (stack_result inv item_to_add).1
      (stack_result inv item_to_add).2.1 (stack_result inv item_to_add).2.2).2) })

/-! ## Entities and the entity store (src/entity.rs, src/entity_manager.rs)

The entity.rs present in the tree is an earlier iteration of the project;
the Entity fields below are the ones the embedded functions (entity
templates, behaviors, step pipeline) read or write.  Fields that feed only
the external renderer/audio mixer (velocity, size, draw layer, animation
state, ...) are omitted. -/

/-- Versioned entity handle (entity.rs VID); version is a u32. -/
structure VID where
  id : Nat
  version : Nat
deriving DecidableEq, Repr

/-- Modulus of the u32 generation counter. -/
def U32_MOD : Nat := 4294967296

/-- Entity type tags, as matched on in entity_behavior.rs and step.rs. -/
inductive EntityType
  | None
  | Player
  | Zombie
  | Chicken
  | RailLayer
  | Train
  | Item
deriving DecidableEq, Repr

/-- Step-sound alternation state (swap_step_sound toggles between the two). -/
inductive StepSound
  | Step1
  | Step2
deriving DecidableEq, Repr

/-- The sprite tags the embedded code paths mention (rendering is external;
only the assignments in init_as_train / step_train are kept). -/
inductive Sprite
  | Player
  | Zombie
  | TrainHead
  | TrainCarA
  | Caboose
deriving DecidableEq, Repr

structure Entity where
  active : Bool
  marked_for_destruction : Bool
  type_ : EntityType
  vid : VID
  impassable : Bool
  attackable : Bool
  pos : Vec2
  rot : ℚ
  shake : ℚ
  health : Nat
  max_hp : Nat
  move_cooldown : ℚ
  move_cooldown_countdown : ℚ
  step_sound : StepSound
  direction : IVec2
  target_pos : Option Vec2
  counter_a : ℚ
  sprite : Option Sprite
  inventory : Inventory
deriving DecidableEq, Repr

/-- Entity::new defaults for the embedded fields.  The attackable default
is modelled from the spec (the stale entity.rs predates the field; per the
spec ordinary entities resolve as attack targets, so the default is true;
no embedded theorem depends on this default). -/
def Entity.new : Entity where
  active := false
  marked_for_destruction := false
  type_ := EntityType.None
  vid := ⟨0, 0⟩
  impassable := false
  attackable := true
  pos := (0, 0)
  rot := 0
  shake := 0
  health := 0
  max_hp := 0
  move_cooldown := 0
  move_cooldown_countdown := 0
  step_sound := StepSound.Step1
  direction := (0, 0)
  target_pos := none
  counter_a := 0
  sprite := none
  inventory := ⟨[], 0⟩

/-- Modelled from the spec: swap_step_sound is imported from entity.rs by
entity_behavior.rs but the entity.rs in the tree predates it; per the
movement contract it alternates the footstep cue between the two step
sounds. -/
def swap_step_sound (e : Entity) : Entity :=
  { e with step_sound := match e.step_sound with
      | StepSound.Step1 => StepSound.Step2
      | StepSound.Step2 => StepSound.Step1 }

/-- The entity store (entity_manager.rs). -/
structure EntityManager where
  entities : List Entity
  available_ids : List Nat
deriving DecidableEq, Repr

namespace EntityManager

/-- EntityManager::get_entity: resolve a handle; Some only when the slot is
active and the versions match (get_entity_mut checks the same two
conditions). -/
def get_entity (m : EntityManager) (vid : VID) : Option Entity :=
  match m.entities[vid.id]? with
  | some e => if vid.version = e.vid.version ∧ e.active then some e else none
  | none => none

/-- Write-back of a mutation performed through get_entity_mut: if the
handle resolves, the slot is replaced by the mutated entity, otherwise
nothing happens. -/
def modify_entity (m : EntityManager) (vid : VID) (f : Entity → Entity) : EntityManager :=
  match get_entity m vid with
  | some e => { m with entities := m.entities.set vid.id (f e) }
  | none => m

/-- EntityManager::new_entity: pop a free slot (Vec::pop takes the last
element), mark it active, bump its u32 generation, return its handle. -/
def new_entity (m : EntityManager) : Option VID × EntityManager :=
  match m.available_ids.getLast? with
  | some id =>
    match m.entities[id]? with
    | some e =>
      let e1 := { e with active := true,
                         vid := { e.vid with version := (e.vid.version + 1) % U32_MOD } }
      (some e1.vid, { entities := m.entities.set id e1,
                      available_ids := m.available_ids.dropLast })
    | none => (none, m)
  | none => (none, m)

/-- EntityManager::set_inactive: mark the slot inactive and put the id back
on the free list (Vec::insert at 0). -/
def set_inactive (m : EntityManager) (entity_id : Nat) : EntityManager :=
  { entities := updNat m.entities entity_id (fun e => { e with active := false }),
    available_ids := entity_id :: m.available_ids }

/-- EntityManager::set_inactive_vid: release through a handle; a stale or
already-inactive handle is a no-op. -/
def set_inactive_vid (m : EntityManager) (vid : VID) : EntityManager :=
  match m.entities[vid.id]? with
  | some e => if vid.version = e.vid.version ∧ e.active then set_inactive m vid.id else m
  | none => m

end EntityManager

/-! ## Tiles and the stage (src/tile.rs, src/stage.rs) -/

/-- Tile type tags (tile.rs). -/
inductive Tile
  | None
  | Grass
  | Wall
  | Ruin
  | Water
  | Rail
deriving DecidableEq, Repr

/-- Tile::walkable. -/
def Tile.walkable : Tile → Bool
  | Tile.None => true
  | Tile.Grass => true
  | Tile.Ruin => true
  | Tile.Rail => true
  | _ => false

/-- Tile::empty. -/
def Tile.empty : Tile → Bool
  | Tile.None => true
  | _ => false

/-- Tile::can_build_on. -/
def Tile.can_build_on : Tile → Bool
  | Tile.None => true
  | Tile.Grass => true
  | _ => false

/-- Damage type tags; tile.rs matches Punch and Scratch and rejects every
other variant, which the Other constructor stands for. -/
inductive DamageType
  | Punch
  | Scratch
  | Other
deriving DecidableEq, Repr

/-- Per-cell tile record.  The stage.rs in the tree is an earlier
iteration; the field list follows the TileData struct documented and used
in entity_behavior.rs / tile.rs / item_use.rs (tile, hp, max_hp,
breakable, variant, flip_speed, rot).  The f32 visual shake written only
by tile_shake_area_at and read only by the renderer is omitted (see
tile_shake_area_at below). -/
structure TileData where
  tile : Tile
  hp : Nat
  max_hp : Nat
  breakable : Bool
  variant : Nat
  flip_speed : Nat
  rot : ℚ
deriving DecidableEq, Repr

/-- TileData::default(): the all-zero None tile. -/
def TileData.default : TileData where
  tile := Tile.None
  hp := 0
  max_hp := 0
  breakable := false
  variant := 0
  flip_speed := 0
  rot := 0

/-- The tile grid (stage.rs); tiles are indexed tiles[x][y]. -/
structure Stage where
  tiles : List (List TileData)
deriving DecidableEq, Repr

namespace Stage

/-- Stage::get_tile: bounds-checked (against the width and the first
column's height, as in the source) copy of a tile. -/
def get_tile (st : Stage) (x y : Nat) : Option TileData :=
  if x < st.tiles.length ∧ y < (st.tiles[0]?.getD []).length then (st.tiles[x]?.getD [])[y]?
  else none

/-- Stage::get_tile_type. -/
def get_tile_type (st : Stage) (x y : Nat) : Option Tile :=
  if x < st.tiles.length ∧ y < (st.tiles[0]?.getD []).length then
    ((st.tiles[x]?.getD [])[y]?).map TileData.tile
  else none

/-- Stage::set_tile: bounds-checked in-place store. -/
def set_tile (st : Stage) (x y : Nat) (tile_data : TileData) : Stage :=
  if x < st.tiles.length ∧ y < (st.tiles[0]?.getD []).length then
    ⟨updNat st.tiles x (fun col => updNat col y (fun _ => tile_data))⟩
  else st

/-- Stage::get_width. -/
def get_width (st : Stage) : Nat := st.tiles.length

/-- Stage::get_height. -/
def get_height (st : Stage) : Nat :=
  if st.tiles.isEmpty then 0 else (st.tiles[0]?.getD []).length

/-- Modelled from the spec: Stage::in_bounds is called by step_rail_layer
and step_train but the stage.rs in the tree predates it; per the spec,
out of bounds means outside the tile grid, so in bounds is
0 ≤ x < width and 0 ≤ y < height. -/
def in_bounds (st : Stage) (p : IVec2) : Bool :=
  decide (0 ≤ p.1 ∧ p.1 < (st.get_width : ℤ) ∧ 0 ≤ p.2 ∧ p.2 < (st.get_height : ℤ))

end Stage

/-- Call-site wrapper for the i32-to-usize casts at stage accesses: a
negative coordinate casts to a huge usize and fails the bounds check. -/
def get_tile_typeZ (st : Stage) (p : IVec2) : Option Tile :=
  if p.1 < 0 ∨ p.2 < 0 then none else st.get_tile_type p.1.toNat p.2.toNat

def get_tileZ (st : Stage) (p : IVec2) : Option TileData :=
  if p.1 < 0 ∨ p.2 < 0 then none else st.get_tile p.1.toNat p.2.toNat

def set_tileZ (st : Stage) (p : IVec2) (td : TileData) : Stage :=
  if p.1 < 0 ∨ p.2 < 0 then st else st.set_tile p.1.toNat p.2.toNat td

/-! ## Game state and the spatial occupancy index (src/state.rs)

Only the simulation-bearing fields of state.rs State are embedded:
the entity store, the player handle, the spatial grid and the stage.
Inputs, timers, menu state, particles and render flags feed the external
services and the unembedded drivers. -/

structure GState where
  entity_manager : EntityManager
  player_vid : Option VID
  spatial_grid : List (List (List VID))
  stage : Stage
deriving DecidableEq, Repr

namespace GState

/-- State::add_entity_to_grid: push the handle onto the cell, no-op when
the position is outside the grid. -/
def add_entity_to_grid (s : GState) (vid : VID) (pos : IVec2) : GState :=
  { s with spatial_grid := (updZ s.spatial_grid pos.1
      (fun column => updZ column pos.2 (fun cell => cell ++ [vid]))) }

/-- State::remove_entity_from_grid: retain every other handle in the cell,
no-op when the position is outside the grid. -/
def remove_entity_from_grid (s : GState) (vid : VID) (pos : IVec2) : GState :=
  { s with spatial_grid := (updZ s.spatial_grid pos.1
      (fun column => updZ column pos.2 (fun cell => cell.filter (fun v => decide (v ≠ vid))))) }

/-- State::move_entity_in_grid: remove-then-add. -/
def move_entity_in_grid (s : GState) (vid : VID) (old_pos new_pos : IVec2) : GState :=
  (s.remove_entity_from_grid vid old_pos).add_entity_to_grid vid new_pos

end GState

/-- The handle list of one spatial cell, empty for out-of-bounds
coordinates (a reading convenience over the grid representation). -/
def cellAt (s : GState) (x y : ℤ) : List VID :=
  (getZ ((getZ s.spatial_grid x).getD []) y).getD []


/-! ## Occupancy and tile damage (src/tile.rs) -/

/-- is_tile_occupied: out-of-bounds coordinates count as occupied
(fail-closed); otherwise the cell's handles are resolved through the
entity store and any resolved impassable entity makes the tile occupied;
handles that do not resolve are skipped. -/
def is_tile_occupied (s : GState) (tile_coords : IVec2) : Bool :=
  if tile_coords.1 < 0 ∨ tile_coords.2 < 0 ∨
     (s.spatial_grid.length : ℤ) ≤ tile_coords.1 ∨
     ((s.spatial_grid[0]?.getD []).length : ℤ) ≤ tile_coords.2 then
    true
  else
    (cellAt s tile_coords.1 tile_coords.2).any (fun vid =>
      match s.entity_manager.get_entity vid with
      | some e => e.impassable
      | none => false)

/-- can_damage_tile: only breakable tiles, and only Punch and Scratch
damage, can damage a tile. -/
def can_damage_tile (tile_data : TileData) (damage_type : DamageType) : Bool :=
  if ¬ tile_data.breakable then false
  else
    match damage_type with
    | DamageType.Punch => true
    | DamageType.Scratch => true
    | _ => false

/-- on_tile_break: a broken Wall becomes a default Ruin tile; every other
broken tile becomes the default (empty) tile; the cell itself is never
removed.  The break sound cue goes to the external audio service. -/
def on_tile_break (s : GState) (tile_pos : IVec2) (tile_data : TileData) : GState :=
  match tile_data.tile with
  | Tile.Wall => { s with stage := set_tileZ s.stage tile_pos { TileData.default with tile := Tile.Ruin } }
  | _ => { s with stage := set_tileZ s.stage tile_pos TileData.default }

/-- on_tile_damage reads the tile and spawns sound and debris particles;
it mutates nothing the simulation reads back, so it is the identity here. -/
def on_tile_damage (s : GState) : GState := s

/-- Body of damage_tile once the tile has been read: check
breakability/damage-type acceptance, apply saturating damage to the hp,
transition to the successor tile at zero hp, write the damaged tile back
otherwise (the source's new_hp / tile_data_mut locals are inlined). -/
def damage_tile_resolved (s : GState) (tile_pos : IVec2) (damage : Nat)
    (damage_type : DamageType) (tile_data : TileData) : Bool × GState :=
  if ¬ can_damage_tile tile_data damage_type then (false, s)
  else if tile_data.hp - damage = 0 then
    (true, on_tile_break (on_tile_damage s) tile_pos { tile_data with hp := tile_data.hp - damage })
  else
    (true, { on_tile_damage s with stage := (set_tileZ (on_tile_damage s).stage tile_pos
        { tile_data with hp := tile_data.hp - damage }) })

/-- damage_tile: returns whether damage was dealt; a missing tile deals
none.  The attacker position parameter only orients the debris particles. -/
def damage_tile (s : GState) (tile_pos : IVec2) (damage : Nat) (damage_type : DamageType)
    (_attacker_pos : Vec2) : Bool × GState :=
  match get_tileZ s.stage tile_pos with
  | none => (false, s)
  | some tile_data => damage_tile_resolved s tile_pos damage damage_type tile_data

/-! ## Movement, combat and train behavior (src/entity_behavior.rs) -/

/-- Attack type tags. -/
inductive AttackType
  | FistPunch
  | ZombieScratch
deriving DecidableEq, Repr

/-- The fixed per-attack-type damage amounts from attack. -/
def attack_strength : AttackType → Nat
  | AttackType.FistPunch => 10
  | AttackType.ZombieScratch => 5

/-- ready_to_move: an entity may move when its cooldown countdown is not
positive; an unresolved handle is never ready. -/
def ready_to_move (s : GState) (vid : VID) : Bool :=
  match s.entity_manager.get_entity vid with
  | some e => if e.move_cooldown_countdown > 0 then false else true
  | none => false

/-- reset_move_cooldown: set the countdown back to the configured
interval; a no-op for unresolved handles. -/
def reset_move_cooldown (s : GState) (vid : VID) : GState :=
  { s with entity_manager := (s.entity_manager.modify_entity vid
      (fun e => { e with move_cooldown_countdown := e.move_cooldown })) }

def BASE_SOUND_HEAR_DISTANCE : ℚ := 16

def STEP_SOUND_HEAR_DISTANCE : ℚ := 8

def distSq (a b : Vec2) : ℚ :=
  qadd (qmul (qsub a.1 b.1) (qsub a.1 b.1)) (qmul (qsub a.2 b.2) (qsub a.2 b.2))

/-- Positivity of calc_sound_loudness_from_player_dist_falloff: the
loudness is positive iff a player resolves and its distance to the sound
is below the hearing radius.  The f32 square root only enters through
that comparison and through the cue volume sent to the external audio
service, so the embedding uses the equivalent squared-distance test. -/
def sound_audible (s : GState) (sound_pos : Vec2) (hear_distance : ℚ) : Bool :=
  match s.player_vid with
  | some player_vid =>
    match s.entity_manager.get_entity player_vid with
    | some player => decide (distSq sound_pos player.pos < qmul hear_distance hear_distance)
    | none => false
  | none => false

/-- Local name the source gives the walkability test at the top of
move_entity_on_grid. -/
def terrain_is_walkable (s : GState) (target_grid_pos : IVec2) : Bool :=
  match get_tile_typeZ s.stage target_grid_pos with
  | some t => t.walkable
  | none => false

/-- move_entity_on_grid.  lean_rot stands for the random_range(-15..=15)
draw inside lean_entity; footprint particles and audio cues go to the
external services (they read but do not write simulation state). -/
def move_entity_on_grid (s : GState) (vid : VID) (target_grid_pos : IVec2)
    (ignore_tile_collision ignore_entity_collision dont_reset_move_cooldown : Bool)
    (lean_rot : ℚ) : Bool × GState :=
  -- the source binds the occupancy test to a local tile_is_unoccupied
  if (terrain_is_walkable s target_grid_pos ∨ ignore_tile_collision)
      ∧ (¬ is_tile_occupied s target_grid_pos ∨ ignore_entity_collision) then
    match s.entity_manager.get_entity vid with
    | some e =>
      let old_grid_pos := truncV e.pos
      let s1 := { s with entity_manager := (s.entity_manager.modify_entity vid
          (fun en => { en with pos := tile_center target_grid_pos })) }
      let s2 := s1.move_entity_in_grid vid old_grid_pos target_grid_pos
      -- moved: step sound (swap on audible), lean, cooldown reset, footprint
      let s3 :=
        match (s2.entity_manager.get_entity vid).map Entity.pos with
        | some entity_position =>
          if sound_audible s2 entity_position STEP_SOUND_HEAR_DISTANCE then
            { s2 with entity_manager := s2.entity_manager.modify_entity vid swap_step_sound }
          else s2
        | none => s2
      let s4 := { s3 with entity_manager := (s3.entity_manager.modify_entity vid
          (fun en => { en with rot := lean_rot })) }
      let s5 := if ¬ dont_reset_move_cooldown then reset_move_cooldown s4 vid else s4
      (true, s5)
    | none => (false, s)
  else
    -- blocked: the HitBlock cue goes to the external audio service
    let s1 := if ¬ dont_reset_move_cooldown then reset_move_cooldown s vid else s
    (false, s1)

/-- Saturating damage plus shake bump applied to the attacked entity
(the body of the get_entity_mut(attacked) block in attack). -/
def attack_damage_mut (strength : Nat) (e : Entity) : Entity :=
  { e with
    health := if e.health ≥ strength then e.health - strength else 0,
    shake := qadd e.shake (mkRat 1 10) }

/-- The directional lean rotation both participants receive in attack:
45 degrees when the attacker is left of the attacked, -45 when right,
180 when above, 0 otherwise. -/
def attack_lean_value (attacker_pos attackee_pos : Vec2) : ℚ :=
  if attacker_pos.1 < attackee_pos.1 then 45
  else if attackee_pos.1 < attacker_pos.1 then -45
  else if attacker_pos.2 < attackee_pos.2 then 180
  else 0

def attack_lean_mut (r : ℚ) (e : Entity) : Entity := { e with rot := r }

/-- The three write-backs of attack in source order: damage and shake on
the attacked entity, then the lean rotation on the attacker and on the
attacked. -/
def attack_effect (s : GState) (attacker attacked : VID) (strength : Nat) (lean : ℚ) : GState :=
  { s with entity_manager :=
      (((s.entity_manager.modify_entity attacked (attack_damage_mut strength)).modify_entity
          attacker (attack_lean_mut lean)).modify_entity attacked (attack_lean_mut lean)) }

/-- Body of attack once both handles have resolved: early-out when the
defender is not attackable; otherwise apply the fixed per-type damage with
an explicit saturation guard, bump the defender's shake, and lean both
participants.  Attack cue, impact particle, blood splatter and blood
puddle go to the external audio/particle services. -/
def attack_resolved (s : GState) (attacker attacked : VID) (attack_type : AttackType)
    (attacker_entity attacked_entity : Entity) : GState :=
  if ¬ attacked_entity.attackable then s
  else attack_effect s attacker attacked (attack_strength attack_type)
    (attack_lean_value attacker_entity.pos attacked_entity.pos)

/-- attack: early-out when either handle does not resolve, then the
resolved body above. -/
def attack (s : GState) (attacker attacked : VID) (attack_type : AttackType) : GState :=
  match s.entity_manager.get_entity attacker, s.entity_manager.get_entity attacked with
  | some attacker_entity, some attacked_entity =>
      attack_resolved s attacker attacked attack_type attacker_entity attacked_entity
  | _, _ => s

/-! ## Train behavior and the step pipeline (src/entity_templates.rs,
src/entity_behavior.rs step_train, src/step.rs sweep phase) -/

/-- init_as_train (entity_templates.rs); alignment, mood, damage
vulnerability and the render size are set by the source but never read by
any embedded path. -/
def init_as_train (e : Entity) : Entity :=
  { e with
    active := true,
    type_ := EntityType.Train,
    sprite := some Sprite.TrainHead,
    impassable := true,
    move_cooldown := mkRat 1 50,
    move_cooldown_countdown := mkRat 1 50,
    health := 10000000,
    max_hp := 10000000 }

/-- tile_shake_area_at writes only the f32 visual shake of nearby tiles
(via an f32 vector length); no simulation logic ever reads it back, so the
shake field is omitted from TileData and the call is the identity here. -/
def tile_shake_area_at (s : GState) : GState := s

/-- step_train.  One move at most happens per call, so a single lean_rot
draw is threaded through to move_entity_on_grid. -/
def step_train (s : GState) (vid : VID) (lean_rot : ℚ) : GState :=
  match s.entity_manager.get_entity vid with
  | none => s
  | some e =>
    if e.type_ ≠ EntityType.Train then s
    else if ¬ ready_to_move s vid then s
    else
      let current_pos := truncV e.pos
      let direction := e.direction
      let new_pos : IVec2 := (current_pos.1 + direction.1, current_pos.2 + direction.2)
      if ¬ s.stage.in_bounds new_pos then
        { s with entity_manager := (s.entity_manager.modify_entity vid
            (fun en => { en with marked_for_destruction := true })) }
      else
        let target_tile := get_tile_typeZ s.stage new_pos
        if target_tile ≠ some Tile.Rail then
          { s with entity_manager := (s.entity_manager.modify_entity vid
              (fun en => { en with health := 0 })) }
        else
          let other_trains_in_target := (cellAt s new_pos.1 new_pos.2).any (fun other_vid =>
            match s.entity_manager.get_entity other_vid with
            | some other_entity => other_entity.type_ = EntityType.Train ∧ other_vid ≠ vid
            | none => false)
          if other_trains_in_target then s
          else
            match move_entity_on_grid s vid new_pos true true false lean_rot with
            | (moved, sm) =>
              if moved then
                let hit_entities := ((cellAt sm new_pos.1 new_pos.2).filterMap
                    (fun w => sm.entity_manager.get_entity w)).filterMap
                  (fun en => if en.type_ ≠ EntityType.Train then some en.vid else none)
                let s1 := tile_shake_area_at sm
                -- successor-car bookkeeping on the moving train
                let new_train :=
                  match s1.entity_manager.get_entity vid with
                  | some en =>
                    match en.target_pos with
                    | some tp =>
                      if en.counter_a ≥ 2 then some (tp, en.direction, some Sprite.TrainCarA)
                      else if en.counter_a > 0 then some (tp, en.direction, some Sprite.Caboose)
                      else none
                    | none => none
                  | none => none
                let s2 :=
                  match s1.entity_manager.get_entity vid with
                  | some en =>
                    match en.target_pos with
                    | some _ =>
                      { s1 with entity_manager := (s1.entity_manager.modify_entity vid
                          (fun e2 => { e2 with counter_a := max (qsub e2.counter_a 1) 0 })) }
                    | none => s1
                  | none => s1
                let s3 :=
                  match new_train with
                  | some nt =>
                    match s2.entity_manager.new_entity with
                    | (some new_entity_vid, em1) =>
                      { s2 with entity_manager := (em1.modify_entity new_entity_vid
                          (fun e2 => { init_as_train e2 with
                              pos := nt.1, direction := nt.2.1, sprite := nt.2.2 })) }
                    | (none, em1) => { s2 with entity_manager := em1 }
                  | none => s2
                hit_entities.foldl (fun st hit_vid =>
                  { st with entity_manager := (st.entity_manager.modify_entity hit_vid
                      (fun e2 => { e2 with health := e2.health - 1000 })) }) s3
              else sm

/-- One iteration of the entity-cleanup loop in step_playing: remove the
handle from the spatial grid at the recorded position, release the slot,
and null the player handle if it was the player. -/
def sweep_one (st : GState) (vid : VID) (pos : IVec2) : GState :=
  let st1 := st.remove_entity_from_grid vid pos
  let st2 := { st1 with entity_manager := st1.entity_manager.set_inactive_vid vid }
  match st2.player_vid with
  | some player_vid => if player_vid = vid then { st2 with player_vid := none } else st2
  | none => st2

/-- The deferred-destruction sweep at the end of step_playing: collect
every active entity marked for destruction together with its truncated
position, then run the cleanup loop. -/
def sweep_phase (s : GState) : GState :=
  let vids_to_remove := (s.entity_manager.entities.filter
      (fun e => e.marked_for_destruction && e.active)).map (fun e => (e.vid, truncV e.pos))
  vids_to_remove.foldl (fun st p => sweep_one st p.1 p.2) s

/-! ## Item use (src/item_use.rs)

use_item is the gate-and-consume wrapper around
use_item_internal_lookup.  The lookup dispatches on the item type to six
effect functions whose bodies call into the external graphics service
(screen_to_world) among others; the wrapper is embedded over the
dispatched effect as a parameter, which is exactly the shape the claims
quantify over. -/

/-- The success branch of use_item on the item: reset the cooldown
countdown to the configured cooldown, and for consume-on-use items
decrement the count (which the source guards against underflow) and mark
the stack for destruction when it reaches zero. -/
def use_item_success_update (item : Item) : Item :=
  let item1 := { item with use_cooldown_countdown := item.use_cooldown }
  if item1.consume_on_use then
    let item1a := { item1 with count := if 0 < item1.count then item1.count - 1 else item1.count }
    if item1a.count = 0 then { item1a with marked_for_destruction := true } else item1a
  else item1

/-- use_item: refuse (changing nothing) unless the item is usable, off
cooldown and non-empty; then run the dispatched effect and, on success,
apply the cooldown/consumption update above.  Returns the success flag,
the updated item and the updated state. -/
def use_item (effect : GState → Bool × GState) (s : GState) (item : Item) :
    Bool × Item × GState :=
  let can_be_attempted := item.usable
  if ¬ can_be_attempted ∨ item.use_cooldown_countdown > 0 ∨ item.count = 0 then
    (false, item, s)
  else
    match effect s with
    | (success, s1) =>
      if success then (true, use_item_success_update item, s1)
      else (false, item, s1)

/-! ## Spec-side statements and concrete sample states -/

/-- Total count of a given item type held in a list of inventory entries
(the quantity measure of the inventory-conservation claim). -/
def totalOf (l : List InvEntry) (t : ItemType) : Nat :=
  (l.map (fun e => if e.item.type_ = t then e.item.count else 0)).sum

/-- Count of a given item type carried by an optional returned item. -/
def optCount (r : Option Item) (t : ItemType) : Nat :=
  match r with
  | some it => if it.type_ = t then it.count else 0
  | none => 0

/-- The grid/entity consistency invariant, stated from the spec's words:
every active, impassable entity's handle is present in the spatial-grid
cell matching floor of its position and absent from every other cell. -/
def spec_grid_invariant (s : GState) : Bool :=
  s.entity_manager.entities.all (fun e =>
    if e.active ∧ e.impassable then
      (List.range s.spatial_grid.length).all (fun x =>
        (List.range ((s.spatial_grid[x]?.getD []).length)).all (fun y =>
          ((cellAt s (x : ℤ) (y : ℤ)).any (fun w => decide (w = e.vid)))
            == decide ((⌊e.pos.1⌋, ⌊e.pos.2⌋) = ((x : ℤ), (y : ℤ)))))
    else true)

/-- A state with no entities, no grid and no stage. -/
def empty_state : GState := ⟨⟨[], []⟩, none, [], ⟨[]⟩⟩

/-- A breakable wall tile with 10 durability. -/
def wall_tile : TileData :=
  { TileData.default with
    tile := Tile.Wall,
    hp := 10,
    max_hp := 10,
    breakable := true }

/-- A rail tile. -/
def rail_tile : TileData := { TileData.default with tile := Tile.Rail }

/-- An active impassable entity in slot 0, generation 1, standing on tile
(0, 0). -/
def sample_entity : Entity :=
  { Entity.new with
    active := true,
    vid := ⟨0, 1⟩,
    impassable := true,
    pos := (mkRat 1 2, mkRat 1 2),
    move_cooldown := mkRat 4 5,
    move_cooldown_countdown := 0 }

/-- A 1-by-1 world holding sample_entity on a wall tile. -/
def sample_state : GState :=
  ⟨⟨[sample_entity], []⟩, none, [[[⟨0, 1⟩]]], ⟨[[wall_tile]]⟩⟩

/-- Train head on a 4-by-1 all-rail stage, one free slot behind it; the
head carries a successor-car budget (counter_a = 3) and a spawn target. -/
def c2_head : Entity :=
  { Entity.new with
    active := true,
    type_ := EntityType.Train,
    vid := ⟨0, 1⟩,
    impassable := true,
    pos := (mkRat 3 2, mkRat 1 2),
    direction := (1, 0),
    target_pos := some (mkRat 1 2, mkRat 1 2),
    counter_a := 3,
    move_cooldown := mkRat 1 50,
    move_cooldown_countdown := 0,
    health := 10000000,
    max_hp := 10000000,
    sprite := some Sprite.TrainHead }

def c2_state : GState :=
  ⟨⟨[c2_head, { Entity.new with vid := ⟨1, 0⟩ }], [1]⟩, none,
   [[[]], [[⟨0, 1⟩]], [[]], [[]]],
   ⟨[[rail_tile], [rail_tile], [rail_tile], [rail_tile]]⟩⟩

/-- Attacker (slot 0) and scratched defender (slot 1, health 3, attackable)
on adjacent tiles of a 1-by-2 grass strip. -/
def c5_attacker : Entity :=
  { Entity.new with
    active := true,
    type_ := EntityType.Zombie,
    vid := ⟨0, 1⟩,
    impassable := true,
    pos := (mkRat 1 2, mkRat 1 2),
    health := 40,
    max_hp := 40 }

def c5_defender : Entity :=
  { Entity.new with
    active := true,
    type_ := EntityType.Player,
    vid := ⟨1, 1⟩,
    impassable := true,
    attackable := true,
    pos := (mkRat 1 2, mkRat 3 2),
    health := 3,
    max_hp := 100 }

def c5_state : GState :=
  ⟨⟨[c5_attacker, c5_defender], []⟩, some ⟨1, 1⟩,
   [[[⟨0, 1⟩], [⟨1, 1⟩]]],
   ⟨[[{ TileData.default with tile := Tile.Grass }, { TileData.default with tile := Tile.Grass }]]⟩⟩

/-- A world whose only tile is a fresh breakable wall. -/
def c6_state : GState := ⟨⟨[], []⟩, none, [[[]]], ⟨[[wall_tile]]⟩⟩

/-- A marked-for-destruction entity that is also the player. -/
def c3_marked : Entity :=
  { Entity.new with
    active := true,
    marked_for_destruction := true,
    type_ := EntityType.Player,
    vid := ⟨0, 1⟩,
    impassable := true,
    pos := (mkRat 1 2, mkRat 1 2) }

def c3_state : GState :=
  ⟨⟨[c3_marked], []⟩, some ⟨0, 1⟩, [[[⟨0, 1⟩]]], ⟨[[{ TileData.default with tile := Tile.Grass }]]⟩⟩

/-- A fist-like item: usable, off cooldown, one charge, not consume-on-use
(item.rs gives Fist consume_on_use = false). -/
def fist_item : Item :=
  ⟨ItemType.Fist, false, true, 1, 1, false, mkRat 1 5, 0⟩

/-- A medkit-like item: usable, off cooldown, one charge, consume-on-use. -/
def medkit_item : Item :=
  ⟨ItemType.Medkit, false, true, 10, 1, true, 5, 0⟩

/-- An effect that always reports success and leaves the state unchanged
(the observable shape of, e.g., a successful fist attack as far as the
use_item wrapper is concerned). -/
def trivial_effect : GState → Bool × GState := fun s => (true, s)

/-- A one-slot entity store whose only slot is active at generation 1. -/
def c1_store : EntityManager := ⟨[{ Entity.new with active := true, vid := ⟨0, 1⟩ }], []⟩

/-- An 18-count bandaid stack (max 20). -/
def bandaid_item18 : Item := ⟨ItemType.Bandaid, false, true, 20, 18, false, mkRat 1 5, 0⟩

/-- A 5-count bandaid stack of the same type. -/
def bandaid_item5 : Item := ⟨ItemType.Bandaid, false, true, 20, 5, false, mkRat 1 5, 0⟩

/-- An inventory holding the 18/20 bandaid stack in slot 0. -/
def c7_inv : Inventory := ⟨[⟨0, bandaid_item18⟩], 0⟩

/-- c5_state with the defender's attackable flag cleared. -/
def c5_state_unattackable : GState :=
  ⟨⟨[c5_attacker, { c5_defender with attackable := false }], []⟩, some ⟨1, 1⟩,
   [[[⟨0, 1⟩], [⟨1, 1⟩]]],
   ⟨[[{ TileData.default with tile := Tile.Grass }, { TileData.default with tile := Tile.Grass }]]⟩⟩

/-! ## Helper lemmas -/

theorem updNat_length (l : List α) (i : Nat) (f : α → α) :
    (updNat l i f).length = l.length := by
  unfold updNat
  cases h : l[i]? with
  | none => rfl
  | some a => simp

theorem updNat_getElem_self (l : List α) (i : Nat) (f : α → α) :
    (updNat l i f)[i]? = (l[i]?).map f := by
  unfold updNat
  cases h : l[i]? with
  | none => simp [h]
  | some a =>
      have hi : i < l.length := by
        by_contra hc
        simp [List.getElem?_eq_none (Nat.le_of_not_lt hc)] at h
      simp [List.getElem?_set_self, hi, h]

theorem updNat_getElem_ne (l : List α) (i : Nat) (f : α → α) (j : Nat) (hj : j ≠ i) :
    (updNat l i f)[j]? = l[j]? := by
  unfold updNat
  cases h : l[i]? with
  | none => rfl
  | some a => simp [List.getElem?_set_ne (Ne.symm hj)]

theorem get_entity_eq_some (m : EntityManager) (h : VID) (e : Entity) :
    m.get_entity h = some e ↔
      m.entities[h.id]? = some e ∧ h.version = e.vid.version ∧ e.active = true := by
  unfold EntityManager.get_entity
  constructor
  · intro he
    split at he
    next e0 hm =>
      split at he
      next hc =>
        cases he
        exact ⟨hm, hc.1, hc.2⟩
      next => cases he
    next => cases he
  · rintro ⟨hm, hver, hact⟩
    rw [hm]
    simp [hver, hact]

theorem modify_entity_entities_ne (m : EntityManager) (h : VID) (f : Entity → Entity)
    (j : Nat) (hj : j ≠ h.id) :
    (m.modify_entity h f).entities[j]? = m.entities[j]? := by
  unfold EntityManager.modify_entity
  cases he : m.get_entity h with
  | none => rfl
  | some e => simp [List.getElem?_set_ne (Ne.symm hj)]

theorem modify_entity_avail (m : EntityManager) (h : VID) (f : Entity → Entity) :
    (m.modify_entity h f).available_ids = m.available_ids := by
  unfold EntityManager.modify_entity
  cases he : m.get_entity h with
  | none => rfl
  | some e => rfl

theorem modify_entity_get_self (m : EntityManager) (h : VID) (f : Entity → Entity) (e : Entity)
    (he : m.get_entity h = some e)
    (hv : (f e).vid.version = e.vid.version) (ha : (f e).active = e.active) :
    (m.modify_entity h f).get_entity h = some (f e) := by
  obtain ⟨hm, hver, hact⟩ := (get_entity_eq_some m h e).mp he
  have hi : h.id < m.entities.length := by
    by_contra hc
    simp [List.getElem?_eq_none (Nat.le_of_not_lt hc)] at hm
  apply (get_entity_eq_some _ h (f e)).mpr
  refine ⟨?_, by rw [hv, ← hver], by rw [ha, hact]⟩
  unfold EntityManager.modify_entity
  rw [he]
  simp [List.getElem?_set_self, hi]

theorem modify_entity_get_ne (m : EntityManager) (h : VID) (f : Entity → Entity) (w : VID)
    (hw : w.id ≠ h.id) :
    (m.modify_entity h f).get_entity w = m.get_entity w := by
  unfold EntityManager.get_entity
  rw [modify_entity_entities_ne m h f w.id hw]

theorem modify_entity_get_none (m : EntityManager) (h : VID) (f : Entity → Entity)
    (he : m.get_entity h = none) : m.modify_entity h f = m := by
  unfold EntityManager.modify_entity
  rw [he]

/-! ## Claim theorems -/

/-- C1: a handle whose slot has been released and then reallocated (the
reallocation bumps the slot's u32 generation) no longer resolves: both
get_entity and get_entity_mut (which test the same two conditions) return
none, never the new occupant; and in general a handle resolves to Some
only if the slot is active and the handle's generation equals the slot's
current generation. -/
theorem c1_handle_generation_safety :
    (∀ (m : EntityManager) (h : VID) (e : Entity),
        m.entities[h.id]? = some e → e.vid = h → h.version < U32_MOD →
        ∀ h2 : VID,
          (EntityManager.new_entity (m.set_inactive_vid h)).1 = some h2 → h2.id = h.id →
          EntityManager.get_entity (EntityManager.new_entity (m.set_inactive_vid h)).2 h = none) ∧
    (∀ (m : EntityManager) (h : VID) (e : Entity),
        m.get_entity h = some e → e.active = true ∧ e.vid.version = h.version) := by
  constructor
  · intro m h e hm hvid hlt h2 hpop hid
    have hrel : ∃ e2 : Entity, (m.set_inactive_vid h).entities[h.id]? = some e2 ∧
        e2.vid.version = h.version ∧ e2.active = false := by
      by_cases hc : h.version = e.vid.version ∧ e.active = true
      · refine ⟨{ e with active := false }, ?_, by rw [hvid], rfl⟩
        simp only [EntityManager.set_inactive_vid, hm, if_pos hc, EntityManager.set_inactive]
        simp [updNat_getElem_self, hm]
      · have hact : e.active = false := by
          rcases Bool.dichotomy e.active with hf | ht
          · exact hf
          · exact absurd ⟨by rw [hvid], ht⟩ hc
        refine ⟨e, ?_, by rw [hvid], hact⟩
        simp only [EntityManager.set_inactive_vid, hm, if_neg hc]
    obtain ⟨e2, hm2, hver2, hact2⟩ := hrel
    have hbump : (e2.vid.version + 1) % U32_MOD ≠ h.version := by
      rw [hver2]
      rcases Nat.lt_or_ge (h.version + 1) U32_MOD with hlt2 | hge
      · rw [Nat.mod_eq_of_lt hlt2]
        omega
      · have heq : h.version + 1 = U32_MOD := by omega
        rw [heq, Nat.mod_self]
        have : U32_MOD = 4294967296 := rfl
        omega
    cases hlast : (m.set_inactive_vid h).available_ids.getLast? with
    | none => simp [EntityManager.new_entity, hlast] at hpop
    | some id0 =>
      cases hslot : (m.set_inactive_vid h).entities[id0]? with
      | none => simp [EntityManager.new_entity, hlast, hslot] at hpop
      | some e3 =>
        simp only [EntityManager.new_entity, hlast, hslot] at hpop ⊢
        cases hg : EntityManager.get_entity
            ⟨(m.set_inactive_vid h).entities.set id0
                { e3 with active := true,
                          vid := { e3.vid with version := (e3.vid.version + 1) % U32_MOD } },
              (m.set_inactive_vid h).available_ids.dropLast⟩ h with
        | none => rfl
        | some eX =>
          exfalso
          obtain ⟨hmx, hverx, hactx⟩ := (get_entity_eq_some _ h eX).mp hg
          by_cases hsame : id0 = h.id
          · subst hsame
            rw [hm2] at hslot
            cases hslot
            have hlen : h.id < (m.set_inactive_vid h).entities.length := by
              by_contra hcl
              simp [List.getElem?_eq_none (Nat.le_of_not_lt hcl)] at hm2
            rw [List.getElem?_set_self hlen] at hmx
            cases hmx
            exact hbump hverx.symm
          · rw [List.getElem?_set_ne hsame] at hmx
            rw [hm2] at hmx
            cases hmx
            rw [hact2] at hactx
            cases hactx
  · intro m h e he
    have hch := (get_entity_eq_some m h e).mp he
    exact ⟨hch.2.2, hch.2.1.symm⟩

/-- Witness for c1_handle_generation_safety: releasing the generation-1
handle of a one-slot store and reallocating yields generation 2; the old
handle resolves to none, and the reallocated slot satisfies the resolution
characterization. -/
theorem c1_handle_generation_safety_witness :
    EntityManager.get_entity (EntityManager.new_entity (c1_store.set_inactive_vid ⟨0, 1⟩)).2 ⟨0, 1⟩
        = none ∧
    (({ Entity.new with active := true, vid := ⟨0, 2⟩ } : Entity).active = true ∧
      ({ Entity.new with active := true, vid := ⟨0, 2⟩ } : Entity).vid.version = (2 : Nat)) :=
  ⟨c1_handle_generation_safety.1 c1_store ⟨0, 1⟩ { Entity.new with active := true, vid := ⟨0, 1⟩ }
      (by decide) (by decide) (by decide) ⟨0, 2⟩ (by decide) rfl,
    c1_handle_generation_safety.2 (EntityManager.new_entity (c1_store.set_inactive_vid ⟨0, 1⟩)).2
      ⟨0, 2⟩ { Entity.new with active := true, vid := ⟨0, 2⟩ } (by decide)⟩

/-- C9: the occupancy query reports every out-of-bounds coordinate as
occupied (fail-closed); an in-bounds cell is occupied exactly when some
handle stored there resolves through the entity store to an impassable
entity, and handles that fail to resolve are skipped. -/
theorem c9_occupancy_query (s : GState) (x y : ℤ) :
    ((x < 0 ∨ y < 0 ∨ (s.spatial_grid.length : ℤ) ≤ x ∨
        ((s.spatial_grid[0]?.getD []).length : ℤ) ≤ y) →
      is_tile_occupied s (x, y) = true) ∧
    (0 ≤ x → x < (s.spatial_grid.length : ℤ) → 0 ≤ y →
      y < ((s.spatial_grid[0]?.getD []).length : ℤ) →
      (is_tile_occupied s (x, y) = true ↔
        ∃ vid ∈ cellAt s x y, ∃ e : Entity,
          s.entity_manager.get_entity vid = some e ∧ e.impassable = true)) := by
  constructor
  · intro hoob
    unfold is_tile_occupied
    rw [if_pos hoob]
  · intro hx0 hxl hy0 hyl
    unfold is_tile_occupied
    rw [if_neg (by push_neg; exact ⟨by omega, by omega, by omega, by omega⟩)]
    rw [List.any_eq_true]
    constructor
    · rintro ⟨vid, hmem, hres⟩
      refine ⟨vid, hmem, ?_⟩
      cases hget : s.entity_manager.get_entity vid with
      | none => rw [hget] at hres; cases hres
      | some e => rw [hget] at hres; exact ⟨e, rfl, hres⟩
    · rintro ⟨vid, hmem, e, hget, himp⟩
      refine ⟨vid, hmem, ?_⟩
      rw [hget]
      exact himp

/-- Witness for c9_occupancy_query on sample_state: the out-of-bounds
coordinate (-1, 0) reads occupied, and the in-bounds cell (0, 0) reads
occupied because the impassable sample entity resolves there. -/
theorem c9_occupancy_query_witness :
    is_tile_occupied sample_state (-1, 0) = true ∧
    is_tile_occupied sample_state (0, 0) = true :=
  ⟨(c9_occupancy_query sample_state (-1) 0).1 (Or.inl (by decide)),
    ((c9_occupancy_query sample_state 0 0).2 (by decide) (by decide) (by decide) (by decide)).mpr
      ⟨⟨0, 1⟩, by decide, sample_entity, by decide, by decide⟩⟩

/-- C10: a call to move_entity_on_grid with a handle that does not resolve
returns false and leaves the entire game state unchanged, for every choice
of destination and flags (covering both the free-destination and the
blocked-destination paths). -/
theorem c10_stale_handle_move (s : GState) (vid : VID) (target : IVec2)
    (ignore_tile ignore_entity keep : Bool) (lean_rot : ℚ)
    (h : s.entity_manager.get_entity vid = none) :
    move_entity_on_grid s vid target ignore_tile ignore_entity keep lean_rot = (false, s) := by
  have hr : reset_move_cooldown s vid = s := by
    unfold reset_move_cooldown
    rw [modify_entity_get_none _ _ _ h]
  unfold move_entity_on_grid
  rw [h]
  split_ifs <;> first | rfl | rw [hr]

/-- Witness for c10_stale_handle_move: a never-issued handle on the empty
state. -/
theorem c10_stale_handle_move_witness :
    move_entity_on_grid empty_state ⟨0, 0⟩ (0, 0) false false false 0 = (false, empty_state) :=
  c10_stale_handle_move empty_state ⟨0, 0⟩ (0, 0) false false false 0 rfl

/-- C4: with both collision checks enabled, a move into non-walkable
terrain or into a cell occupied by an impassable entity returns false,
leaves the mover's position, every spatial-grid cell, the stage and the
player handle unchanged, and resets the mover's move-cooldown countdown to
its configured interval unless the keep-cooldown flag suppresses it (in
which case nothing at all changes). -/
theorem c4_blocked_move_resets_cooldown (s : GState) (vid : VID) (target : IVec2)
    (keep : Bool) (lean_rot : ℚ) (e : Entity)
    (he : s.entity_manager.get_entity vid = some e)
    (hblock : terrain_is_walkable s target = false ∨ is_tile_occupied s target = true) :
    (move_entity_on_grid s vid target false false keep lean_rot).1 = false ∧
    (move_entity_on_grid s vid target false false keep lean_rot).2.spatial_grid
        = s.spatial_grid ∧
    (move_entity_on_grid s vid target false false keep lean_rot).2.stage = s.stage ∧
    (move_entity_on_grid s vid target false false keep lean_rot).2.player_vid = s.player_vid ∧
    (keep = true → (move_entity_on_grid s vid target false false keep lean_rot).2 = s) ∧
    (keep = false →
      (move_entity_on_grid s vid target false false keep lean_rot).2.entity_manager.get_entity vid
          = some { e with move_cooldown_countdown := e.move_cooldown } ∧
      (∀ j : Nat, j ≠ vid.id →
        (move_entity_on_grid s vid target false false keep lean_rot).2.entity_manager.entities[j]?
          = s.entity_manager.entities[j]?) ∧
      (move_entity_on_grid s vid target false false keep lean_rot).2.entity_manager.available_ids
        = s.entity_manager.available_ids) := by
  have hcond : ¬ ((terrain_is_walkable s target = true ∨ false = true)
      ∧ (¬ is_tile_occupied s target = true ∨ false = true)) := by
    rintro ⟨h1, h2⟩
    rcases hblock with hb | hb
    · rcases h1 with h1 | h1
      · rw [hb] at h1
        cases h1
      · cases h1
    · rcases h2 with h2 | h2
      · exact h2 hb
      · cases h2
  have hmv : move_entity_on_grid s vid target false false keep lean_rot
      = (false, if ¬ keep = true then reset_move_cooldown s vid else s) := by
    unfold move_entity_on_grid
    rw [if_neg hcond]
  rcases keep with _ | _
  · have hred : move_entity_on_grid s vid target false false false lean_rot
        = (false, reset_move_cooldown s vid) := by
      rw [hmv]
      norm_num
    rw [hred]
    refine ⟨rfl, rfl, rfl, rfl, ?_, ?_⟩
    · intro hk
      cases hk
    · intro _
      refine ⟨?_, ?_, ?_⟩
      · exact modify_entity_get_self s.entity_manager vid _ e he rfl rfl
      · intro j hj
        exact modify_entity_entities_ne s.entity_manager vid _ j hj
      · exact modify_entity_avail s.entity_manager vid _
  · have hred : move_entity_on_grid s vid target false false true lean_rot = (false, s) := by
      rw [hmv]
      norm_num
    rw [hred]
    refine ⟨rfl, rfl, rfl, rfl, fun _ => rfl, ?_⟩
    intro hk
    cases hk

/-- Witness for c4_blocked_move_resets_cooldown: sample_entity tries to
step onto the wall tile (0, 0); the move fails and its countdown is reset
from 0 to its 0.8-second interval. -/
theorem c4_blocked_move_resets_cooldown_witness :
    (move_entity_on_grid sample_state ⟨0, 1⟩ (0, 0) false false false 0).1 = false ∧
    (move_entity_on_grid sample_state ⟨0, 1⟩ (0, 0) false false false 0).2.entity_manager.get_entity
        ⟨0, 1⟩ = some { sample_entity with move_cooldown_countdown := sample_entity.move_cooldown } :=
  by
  have h := c4_blocked_move_resets_cooldown sample_state ⟨0, 1⟩ (0, 0) false 0 sample_entity
      (by decide) (Or.inl (by decide))
  exact ⟨h.1, (h.2.2.2.2.2 rfl).1⟩


/-- C5: attack mutates nothing unless both handles resolve and the
defender is attackable; when it resolves, the defender's health drops by
the fixed per-attack-type amount with saturation at zero, so damage at or
above the current health leaves exactly 0. -/
theorem c5_attack_saturating_damage :
    (∀ (s : GState) (a b : VID) (ty : AttackType),
        s.entity_manager.get_entity a = none ∨ s.entity_manager.get_entity b = none →
        attack s a b ty = s) ∧
    (∀ (s : GState) (a b : VID) (ty : AttackType) (eb : Entity),
        s.entity_manager.get_entity b = some eb → eb.attackable = false →
        attack s a b ty = s) ∧
    (∀ (s : GState) (a b : VID) (ty : AttackType) (ea eb : Entity),
        s.entity_manager.get_entity a = some ea →
        s.entity_manager.get_entity b = some eb →
        eb.attackable = true →
        ∃ eb2 : Entity,
          (attack s a b ty).entity_manager.get_entity b = some eb2 ∧
          eb2.health = eb.health - attack_strength ty ∧
          (attack_strength ty ≥ eb.health → eb2.health = 0)) := by
  refine ⟨?_, ?_, ?_⟩
  · intro s a b ty h
    unfold attack
    rcases h with h | h
    · rw [h]
    · rw [h]
      cases s.entity_manager.get_entity a <;> rfl
  · intro s a b ty eb hgb hatt
    unfold attack
    rw [hgb]
    cases hga : s.entity_manager.get_entity a with
    | none => rfl
    | some ea =>
      have hres : attack_resolved s a b ty ea eb = s := by
        unfold attack_resolved
        rw [if_pos (show ¬ eb.attackable = true by rw [hatt]; exact Bool.false_ne_true)]
      exact hres
  · intro s a b ty ea eb hga hgb hatt
    have hred : attack s a b ty
        = attack_effect s a b (attack_strength ty) (attack_lean_value ea.pos eb.pos) := by
      unfold attack
      rw [hga, hgb]
      have hres : attack_resolved s a b ty ea eb
          = attack_effect s a b (attack_strength ty) (attack_lean_value ea.pos eb.pos) := by
        unfold attack_resolved
        rw [if_neg (by rw [hatt]; simp)]
      exact hres
    rw [hred]
    unfold attack_effect
    have hsat : (attack_damage_mut (attack_strength ty) eb).health
        = eb.health - attack_strength ty := by
      unfold attack_damage_mut
      by_cases hge : eb.health ≥ attack_strength ty
      · rw [if_pos hge]
      · rw [if_neg hge]
        show 0 = eb.health - attack_strength ty
        omega
    have g1 : (s.entity_manager.modify_entity b (attack_damage_mut (attack_strength ty))).get_entity b
        = some (attack_damage_mut (attack_strength ty) eb) :=
      modify_entity_get_self s.entity_manager b _ eb hgb rfl rfl
    by_cases hab : a.id = b.id
    · have hobj := (get_entity_eq_some s.entity_manager a ea).mp hga
      have hobj2 := (get_entity_eq_some s.entity_manager b eb).mp hgb
      have heb : ea = eb := by
        rw [hab] at hobj
        exact Option.some.inj (hobj.1.symm.trans hobj2.1)
      have hver : a.version = b.version := by
        rw [hobj.2.1, hobj2.2.1, heb]
      have hvid : a = b := by
        cases a
        cases b
        simp only [VID.mk.injEq]
        exact ⟨hab, hver⟩
      subst hvid
      have g2 := modify_entity_get_self _ a (attack_lean_mut (attack_lean_value ea.pos eb.pos))
          (attack_damage_mut (attack_strength ty) eb) g1 rfl rfl
      have g3 := modify_entity_get_self _ a (attack_lean_mut (attack_lean_value ea.pos eb.pos))
          _ g2 rfl rfl
      refine ⟨_, g3, hsat, ?_⟩
      intro hge
      have hh : (attack_lean_mut (attack_lean_value ea.pos eb.pos)
          (attack_lean_mut (attack_lean_value ea.pos eb.pos)
            (attack_damage_mut (attack_strength ty) eb))).health
          = (attack_damage_mut (attack_strength ty) eb).health := rfl
      rw [hh, hsat]
      omega
    · have g2 : ((s.entity_manager.modify_entity b
          (attack_damage_mut (attack_strength ty))).modify_entity a
            (attack_lean_mut (attack_lean_value ea.pos eb.pos))).get_entity b
          = some (attack_damage_mut (attack_strength ty) eb) := by
        rw [modify_entity_get_ne _ a _ b (fun hh => hab hh.symm)]
        exact g1
      have g3 := modify_entity_get_self _ b (attack_lean_mut (attack_lean_value ea.pos eb.pos))
          _ g2 rfl rfl
      refine ⟨_, g3, hsat, ?_⟩
      intro hge
      have hh : (attack_lean_mut (attack_lean_value ea.pos eb.pos)
          (attack_damage_mut (attack_strength ty) eb)).health
          = (attack_damage_mut (attack_strength ty) eb).health := rfl
      rw [hh, hsat]
      omega

/-- Witness for c5_attack_saturating_damage: unresolved handles mutate
nothing; an unattackable defender mutates nothing; and a 5-damage zombie
scratch against the 3-health defender leaves exactly 0 health. -/
theorem c5_attack_saturating_damage_witness :
    attack empty_state ⟨0, 0⟩ ⟨0, 0⟩ AttackType.FistPunch = empty_state ∧
    attack c5_state_unattackable ⟨0, 1⟩ ⟨1, 1⟩ AttackType.ZombieScratch
        = c5_state_unattackable ∧
    (∃ eb2 : Entity,
      (attack c5_state ⟨0, 1⟩ ⟨1, 1⟩ AttackType.ZombieScratch).entity_manager.get_entity ⟨1, 1⟩
          = some eb2 ∧
      eb2.health = c5_defender.health - attack_strength AttackType.ZombieScratch ∧
      (attack_strength AttackType.ZombieScratch ≥ c5_defender.health → eb2.health = 0)) :=
  ⟨c5_attack_saturating_damage.1 empty_state ⟨0, 0⟩ ⟨0, 0⟩ AttackType.FistPunch (Or.inl rfl),
   c5_attack_saturating_damage.2.1 c5_state_unattackable ⟨0, 1⟩ ⟨1, 1⟩ AttackType.ZombieScratch
     { c5_defender with attackable := false } (by decide) (by decide),
   c5_attack_saturating_damage.2.2 c5_state ⟨0, 1⟩ ⟨1, 1⟩ AttackType.ZombieScratch
     c5_attacker c5_defender (by decide) (by decide) (by decide)⟩

theorem get_tileZ_set_tileZ_self (st : Stage) (p : IVec2) (td0 td : TileData)
    (h : get_tileZ st p = some td0) :
    get_tileZ (set_tileZ st p td) p = some td := by
  unfold get_tileZ at h ⊢
  unfold set_tileZ
  by_cases hneg : p.1 < 0 ∨ p.2 < 0
  · rw [if_pos hneg] at h
    cases h
  · rw [if_neg hneg] at h ⊢
    rw [if_neg hneg]
    unfold Stage.get_tile at h ⊢
    unfold Stage.set_tile
    split at h
    next hC =>
      rw [if_pos hC]
      cases hcol : st.tiles[p.1.toNat]? with
      | none => rw [hcol] at h; cases h
      | some col =>
        have h2 : col[p.2.toNat]? = some td0 := by
          rw [hcol] at h
          exact h
        have hlen0 : ((updNat st.tiles p.1.toNat
            (fun c => updNat c p.2.toNat (fun _ => td)))[0]?.getD []).length
            = (st.tiles[0]?.getD []).length := by
          by_cases hx0 : (0 : Nat) = p.1.toNat
          · rw [← hx0]
            rw [← hx0] at hcol
            rw [updNat_getElem_self, hcol]
            simp [updNat_length]
          · rw [updNat_getElem_ne _ _ _ 0 hx0]
        rw [if_pos ⟨by rw [updNat_length]; exact hC.1, by rw [hlen0]; exact hC.2⟩]
        rw [updNat_getElem_self, hcol]
        show (updNat col p.2.toNat (fun _ => td))[p.2.toNat]? = some td
        rw [updNat_getElem_self, h2]
        rfl
    next hC => cases h

/-- C6: damage_tile deals damage only to breakable tiles hit by an
accepted damage type; durability falls by saturating subtraction, so it
never goes below zero; at zero durability the tile transitions to its
per-type successor (a Wall becomes a Ruin) instead of the cell being
deleted; and a breakable Wall of durability 10 taking four separate
3-damage Punch hits is a Ruin after the fourth hit, not a
negative-durability Wall. -/
theorem c6_damage_tile_saturating_successor :
    (∀ (s : GState) (pos : IVec2) (dmg : Nat) (dt : DamageType) (ap : Vec2),
        get_tileZ s.stage pos = none → damage_tile s pos dmg dt ap = (false, s)) ∧
    (∀ (s : GState) (pos : IVec2) (dmg : Nat) (dt : DamageType) (ap : Vec2) (td : TileData),
        get_tileZ s.stage pos = some td → can_damage_tile td dt = false →
        damage_tile s pos dmg dt ap = (false, s)) ∧
    (∀ (s : GState) (pos : IVec2) (dmg : Nat) (dt : DamageType) (ap : Vec2) (td : TileData),
        get_tileZ s.stage pos = some td → can_damage_tile td dt = true → dmg < td.hp →
        (damage_tile s pos dmg dt ap).1 = true ∧
        get_tileZ (damage_tile s pos dmg dt ap).2.stage pos
          = some { td with hp := td.hp - dmg }) ∧
    (∀ (s : GState) (pos : IVec2) (dmg : Nat) (dt : DamageType) (ap : Vec2) (td : TileData),
        get_tileZ s.stage pos = some td → can_damage_tile td dt = true → td.hp ≤ dmg →
        td.tile = Tile.Wall →
        (damage_tile s pos dmg dt ap).1 = true ∧
        get_tileZ (damage_tile s pos dmg dt ap).2.stage pos
          = some { TileData.default with tile := Tile.Ruin }) ∧
    (get_tileZ (damage_tile (damage_tile (damage_tile c6_state
          (0, 0) 3 DamageType.Punch (0, 0)).2
          (0, 0) 3 DamageType.Punch (0, 0)).2
          (0, 0) 3 DamageType.Punch (0, 0)).2.stage (0, 0)
        = some { wall_tile with hp := 1 } ∧
      get_tileZ (damage_tile (damage_tile (damage_tile (damage_tile c6_state
          (0, 0) 3 DamageType.Punch (0, 0)).2
          (0, 0) 3 DamageType.Punch (0, 0)).2
          (0, 0) 3 DamageType.Punch (0, 0)).2
          (0, 0) 3 DamageType.Punch (0, 0)).2.stage (0, 0)
        = some { TileData.default with tile := Tile.Ruin }) := by
  refine ⟨?_, ?_, ?_, ?_, by decide, by decide⟩
  · intro s pos dmg dt ap h
    unfold damage_tile
    rw [h]
  · intro s pos dmg dt ap td hget hcan
    unfold damage_tile
    rw [hget]
    have hres : damage_tile_resolved s pos dmg dt td = (false, s) := by
      unfold damage_tile_resolved
      rw [if_pos (show ¬ can_damage_tile td dt = true by rw [hcan]; exact Bool.false_ne_true)]
    exact hres
  · intro s pos dmg dt ap td hget hcan hlt
    unfold damage_tile
    rw [hget]
    have hres : damage_tile_resolved s pos dmg dt td
        = (true, { s with stage := set_tileZ s.stage pos { td with hp := td.hp - dmg } }) := by
      unfold damage_tile_resolved
      rw [if_neg (show ¬ ¬ can_damage_tile td dt = true by rw [hcan]; simp)]
      rw [if_neg (show ¬ (td.hp - dmg = 0) by omega)]
      rfl
    show (damage_tile_resolved s pos dmg dt td).1 = true ∧
        get_tileZ (damage_tile_resolved s pos dmg dt td).2.stage pos
          = some { td with hp := td.hp - dmg }
    rw [hres]
    exact ⟨rfl, get_tileZ_set_tileZ_self s.stage pos td _ hget⟩
  · intro s pos dmg dt ap td hget hcan hge hwall
    unfold damage_tile
    rw [hget]
    have hres : damage_tile_resolved s pos dmg dt td
        = (true, { s with stage := (set_tileZ s.stage pos
            { TileData.default with tile := Tile.Ruin }) }) := by
      unfold damage_tile_resolved
      rw [if_neg (show ¬ ¬ can_damage_tile td dt = true by rw [hcan]; simp)]
      rw [if_pos (show td.hp - dmg = 0 by omega)]
      simp only [on_tile_break, on_tile_damage, hwall]
    show (damage_tile_resolved s pos dmg dt td).1 = true ∧
        get_tileZ (damage_tile_resolved s pos dmg dt td).2.stage pos
          = some { TileData.default with tile := Tile.Ruin }
    rw [hres]
    exact ⟨rfl, get_tileZ_set_tileZ_self s.stage pos td _ hget⟩

/-- Witness for c6_damage_tile_saturating_successor: a missing tile and an
unbreakable rail reject damage; a 3-damage punch on the fresh wall leaves
hp 7; a 10-damage punch breaks it into a Ruin. -/
theorem c6_damage_tile_saturating_successor_witness :
    damage_tile empty_state (0, 0) 3 DamageType.Punch (0, 0) = (false, empty_state) ∧
    damage_tile c2_state (0, 0) 3 DamageType.Punch (0, 0) = (false, c2_state) ∧
    ((damage_tile c6_state (0, 0) 3 DamageType.Punch (0, 0)).1 = true ∧
      get_tileZ (damage_tile c6_state (0, 0) 3 DamageType.Punch (0, 0)).2.stage (0, 0)
        = some { wall_tile with hp := wall_tile.hp - 3 }) ∧
    ((damage_tile c6_state (0, 0) 10 DamageType.Punch (0, 0)).1 = true ∧
      get_tileZ (damage_tile c6_state (0, 0) 10 DamageType.Punch (0, 0)).2.stage (0, 0)
        = some { TileData.default with tile := Tile.Ruin }) :=
  ⟨c6_damage_tile_saturating_successor.1 empty_state (0, 0) 3 DamageType.Punch (0, 0) rfl,
   c6_damage_tile_saturating_successor.2.1 c2_state (0, 0) 3 DamageType.Punch (0, 0) rail_tile
     (by decide) (by decide),
   c6_damage_tile_saturating_successor.2.2.1 c6_state (0, 0) 3 DamageType.Punch (0, 0) wall_tile
     (by decide) (by decide) (by decide),
   c6_damage_tile_saturating_successor.2.2.2.1 c6_state (0, 0) 10 DamageType.Punch (0, 0) wall_tile
     (by decide) (by decide) (by decide) (by decide)⟩

/-- C8 counterexample to the claim as stated: the Fist item is usable, off
cooldown, with count 1, and not consume-on-use (item.rs); with an effect
that reports success, use_item returns true yet the count stays 1 and the
stack is not marked for destruction, whereas the claim requires every
successful use to decrement the count (here to 0) and mark the stack. -/
theorem c8_use_item_counterexample :
    (use_item trivial_effect empty_state fist_item).1 = true ∧
    fist_item.count = 1 ∧
    (use_item trivial_effect empty_state fist_item).2.1.count = 1 ∧
    (use_item trivial_effect empty_state fist_item).2.1.marked_for_destruction = false := by
  decide

/-- C8 amended: use_item returns false and changes neither the item nor
the game state when the item is not usable, on cooldown, or empty;
whenever the dispatched effect reports success it resets the cooldown
countdown to the configured use-cooldown and, only when the item is
consume-on-use, decrements its count, marking the stack for destruction
when the count reaches zero; items that are not consume-on-use keep their
count. -/
theorem c8_use_item_gating_and_consumption :
    (∀ (effect : GState → Bool × GState) (s : GState) (it : Item),
        it.usable = false ∨ it.use_cooldown_countdown > 0 ∨ it.count = 0 →
        use_item effect s it = (false, it, s)) ∧
    (∀ (effect : GState → Bool × GState) (s : GState) (it : Item),
        it.usable = true → ¬ it.use_cooldown_countdown > 0 → it.count ≠ 0 →
        (effect s).1 = true →
        use_item effect s it = (true, use_item_success_update it, (effect s).2)) ∧
    (∀ it : Item, (use_item_success_update it).use_cooldown_countdown = it.use_cooldown) ∧
    (∀ it : Item, it.consume_on_use = false →
        use_item_success_update it = { it with use_cooldown_countdown := it.use_cooldown }) ∧
    (∀ it : Item, it.consume_on_use = true →
        (use_item_success_update it).count = it.count - 1 ∧
        (it.count - 1 = 0 → (use_item_success_update it).marked_for_destruction = true) ∧
        (it.count - 1 ≠ 0 →
          (use_item_success_update it).marked_for_destruction = it.marked_for_destruction)) := by
  refine ⟨?_, ?_, ?_, ?_, ?_⟩
  · intro effect s it h
    unfold use_item
    rw [if_pos]
    rcases h with h | h | h
    · exact Or.inl (by rw [h]; exact Bool.false_ne_true)
    · exact Or.inr (Or.inl h)
    · exact Or.inr (Or.inr h)
  · intro effect s it hu hcd hcount hsucc
    unfold use_item
    rw [if_neg (by push_neg; exact ⟨by rw [hu], not_lt.mp hcd, hcount⟩)]
    cases heff : effect s with
    | mk success s1 =>
      rw [heff] at hsucc
      simp only at hsucc
      subst hsucc
      rfl
  · intro it
    unfold use_item_success_update
    by_cases hc : it.consume_on_use = true
    · rw [if_pos hc]
      by_cases hz : (if 0 < it.count then it.count - 1 else it.count) = 0
      · rw [if_pos hz]
      · rw [if_neg hz]
    · rw [if_neg hc]
  · intro it hc
    unfold use_item_success_update
    rw [if_neg (by rw [hc]; exact Bool.false_ne_true)]
  · intro it hc
    unfold use_item_success_update
    rw [if_pos (show ({ it with use_cooldown_countdown := it.use_cooldown } : Item).consume_on_use
        = true from hc)]
    have hcnt : (if 0 < ({ it with use_cooldown_countdown := it.use_cooldown } : Item).count
        then ({ it with use_cooldown_countdown := it.use_cooldown } : Item).count - 1
        else ({ it with use_cooldown_countdown := it.use_cooldown } : Item).count)
        = it.count - 1 := by
      by_cases h0 : 0 < it.count
      · rw [if_pos h0]
      · rw [if_neg h0]
        show it.count = it.count - 1
        omega
    rw [hcnt]
    by_cases hz : it.count - 1 = 0
    · rw [if_pos hz]
      exact ⟨rfl, fun _ => rfl, fun hne => absurd hz hne⟩
    · rw [if_neg hz]
      exact ⟨rfl, fun he => absurd he hz, fun _ => rfl⟩

/-- Witness for c8_use_item_gating_and_consumption: an empty fist stack is
refused; a successful medkit use (consume-on-use, count 1) comes back with
cooldown 5, count 0 and the destruction mark; a successful fist use keeps
count 1. -/
theorem c8_use_item_gating_and_consumption_witness :
    use_item trivial_effect empty_state { fist_item with count := 0 }
        = (false, { fist_item with count := 0 }, empty_state) ∧
    use_item trivial_effect empty_state medkit_item
        = (true, use_item_success_update medkit_item, empty_state) ∧
    (use_item_success_update medkit_item).count = medkit_item.count - 1 ∧
    use_item_success_update fist_item
        = { fist_item with use_cooldown_countdown := fist_item.use_cooldown } :=
  ⟨c8_use_item_gating_and_consumption.1 trivial_effect empty_state
      { fist_item with count := 0 } (Or.inr (Or.inr rfl)),
   c8_use_item_gating_and_consumption.2.1 trivial_effect empty_state medkit_item rfl
     (by decide) (by decide) rfl,
   (c8_use_item_gating_and_consumption.2.2.2.2 medkit_item rfl).1,
   c8_use_item_gating_and_consumption.2.2.2.1 fist_item rfl⟩

theorem totalOf_cons (e : InvEntry) (l : List InvEntry) (t : ItemType) :
    totalOf (e :: l) t = (if e.item.type_ = t then e.item.count else 0) + totalOf l t := by
  simp [totalOf]

theorem totalOf_append_singleton (l : List InvEntry) (x : InvEntry) (t : ItemType) :
    totalOf (l ++ [x]) t = totalOf l t + (if x.item.type_ = t then x.item.count else 0) := by
  simp [totalOf]

theorem totalOf_sort (l : List InvEntry) (t : ItemType) :
    totalOf (sort_by_index l) t = totalOf l t := by
  unfold totalOf sort_by_index
  exact List.Perm.sum_eq (List.Perm.map _ (List.mergeSort_perm l _))

theorem stack_loop_type (entries : List InvEntry) (it : Item) :
    (stack_loop entries it).2.1.type_ = it.type_ := by
  induction entries generalizing it with
  | nil => rfl
  | cons e rest ih =>
    unfold stack_loop
    by_cases hm : e.item.type_ = it.type_ ∧ e.item.count < e.item.max_count
    · rw [if_pos hm]
      by_cases hz : (stack_item_upd it (transfer_amount e it)).count = 0
      · rw [if_pos hz]
        rfl
      · rw [if_neg hz]
        exact ih (stack_item_upd it (transfer_amount e it))
    · rw [if_neg hm]
      exact ih it

theorem stack_loop_done_count (entries : List InvEntry) (it : Item) :
    (stack_loop entries it).2.2 = true → (stack_loop entries it).2.1.count = 0 := by
  induction entries generalizing it with
  | nil => intro h; cases h
  | cons e rest ih =>
    unfold stack_loop
    by_cases hm : e.item.type_ = it.type_ ∧ e.item.count < e.item.max_count
    · rw [if_pos hm]
      by_cases hz : (stack_item_upd it (transfer_amount e it)).count = 0
      · rw [if_pos hz]
        intro _
        exact hz
      · rw [if_neg hz]
        exact ih (stack_item_upd it (transfer_amount e it))
    · rw [if_neg hm]
      exact ih it

theorem stack_loop_conserves (entries : List InvEntry) (it : Item) (t : ItemType) :
    totalOf (stack_loop entries it).1 t
        + (if (stack_loop entries it).2.1.type_ = t then (stack_loop entries it).2.1.count else 0)
      = totalOf entries t + (if it.type_ = t then it.count else 0) := by
  induction entries generalizing it with
  | nil => rfl
  | cons e rest ih =>
    have hamt : transfer_amount e it ≤ it.count := min_le_right _ _
    unfold stack_loop
    by_cases hm : e.item.type_ = it.type_ ∧ e.item.count < e.item.max_count
    · rw [if_pos hm]
      by_cases hz : (stack_item_upd it (transfer_amount e it)).count = 0
      · rw [if_pos hz]
        show totalOf (stack_entry_upd e (transfer_amount e it) :: rest) t
            + (if (stack_item_upd it (transfer_amount e it)).type_ = t
                then (stack_item_upd it (transfer_amount e it)).count else 0)
          = totalOf (e :: rest) t + (if it.type_ = t then it.count else 0)
        have hz2 : it.count - transfer_amount e it = 0 := hz
        rw [totalOf_cons, totalOf_cons]
        by_cases ht : it.type_ = t
        · have het : e.item.type_ = t := hm.1.trans ht
          rw [if_pos (show (stack_entry_upd e (transfer_amount e it)).item.type_ = t from het)]
          rw [if_pos (show (stack_item_upd it (transfer_amount e it)).type_ = t from ht)]
          rw [if_pos het, if_pos ht]
          show e.item.count + transfer_amount e it + totalOf rest t
              + (it.count - transfer_amount e it)
            = e.item.count + totalOf rest t + it.count
          omega
        · have het : ¬ e.item.type_ = t := fun hh => ht (hm.1.symm.trans hh)
          rw [if_neg (show ¬ (stack_entry_upd e (transfer_amount e it)).item.type_ = t from het)]
          rw [if_neg (show ¬ (stack_item_upd it (transfer_amount e it)).type_ = t from ht)]
          rw [if_neg het, if_neg ht]
      · rw [if_neg hz]
        have ihx := ih (stack_item_upd it (transfer_amount e it))
        show totalOf (stack_entry_upd e (transfer_amount e it)
              :: (stack_loop rest (stack_item_upd it (transfer_amount e it))).1) t
            + (if (stack_loop rest (stack_item_upd it (transfer_amount e it))).2.1.type_ = t
                then (stack_loop rest (stack_item_upd it (transfer_amount e it))).2.1.count else 0)
          = totalOf (e :: rest) t + (if it.type_ = t then it.count else 0)
        rw [totalOf_cons, totalOf_cons]
        by_cases ht : it.type_ = t
        · have het : e.item.type_ = t := hm.1.trans ht
          have htyp : (stack_loop rest (stack_item_upd it (transfer_amount e it))).2.1.type_ = t :=
            (stack_loop_type rest (stack_item_upd it (transfer_amount e it))).trans ht
          rw [if_pos htyp]
          rw [if_pos (show (stack_entry_upd e (transfer_amount e it)).item.type_ = t from het)]
          rw [if_pos htyp, if_pos (show (stack_item_upd it (transfer_amount e it)).type_ = t
              from ht)] at ihx
          have hcnt : (stack_item_upd it (transfer_amount e it)).count
              = it.count - transfer_amount e it := rfl
          rw [hcnt] at ihx
          rw [if_pos het, if_pos ht]
          show e.item.count + transfer_amount e it
              + totalOf (stack_loop rest (stack_item_upd it (transfer_amount e it))).1 t
              + (stack_loop rest (stack_item_upd it (transfer_amount e it))).2.1.count
            = e.item.count + totalOf rest t + it.count
          omega
        · have het : ¬ e.item.type_ = t := fun hh => ht (hm.1.symm.trans hh)
          have htyp : ¬ (stack_loop rest (stack_item_upd it (transfer_amount e it))).2.1.type_ = t :=
            fun hh =>
              ht ((stack_loop_type rest (stack_item_upd it (transfer_amount e it))).symm.trans hh)
          rw [if_neg htyp]
          rw [if_neg (show ¬ (stack_entry_upd e (transfer_amount e it)).item.type_ = t from het)]
          rw [if_neg htyp, if_neg (show ¬ (stack_item_upd it (transfer_amount e it)).type_ = t
              from ht)] at ihx
          rw [if_neg het, if_neg ht]
          omega
    · rw [if_neg hm]
      have ihx := ih it
      show totalOf (e :: (stack_loop rest it).1) t
          + (if (stack_loop rest it).2.1.type_ = t then (stack_loop rest it).2.1.count else 0)
        = totalOf (e :: rest) t + (if it.type_ = t then it.count else 0)
      rw [totalOf_cons, totalOf_cons]
      omega

theorem swap_selected_conserves (sel : Nat) (n : Item) (l : List InvEntry) :
    ∀ (l2 : List InvEntry) (old : Item), swap_selected sel n l = some (old, l2) →
    ∀ t : ItemType,
      totalOf l2 t + (if old.type_ = t then old.count else 0)
        = totalOf l t + (if n.type_ = t then n.count else 0) := by
  induction l with
  | nil => intro l2 old h; cases h
  | cons e rest ih =>
    intro l2 old h t
    unfold swap_selected at h
    by_cases hsel : e.index = sel
    · rw [if_pos hsel] at h
      simp only [Option.some.injEq, Prod.mk.injEq] at h
      obtain ⟨h1, h2⟩ := h
      subst h1
      subst h2
      rw [totalOf_cons, totalOf_cons]
      show (if n.type_ = t then n.count else 0) + totalOf rest t
          + (if e.item.type_ = t then e.item.count else 0)
        = (if e.item.type_ = t then e.item.count else 0) + totalOf rest t
          + (if n.type_ = t then n.count else 0)
      omega
    · rw [if_neg hsel] at h
      cases hrec : swap_selected sel n rest with
      | none => rw [hrec] at h; cases h
      | some p =>
        rw [hrec] at h
        cases hp : p with
        | mk oldr rest2 =>
          rw [hp] at h hrec
          simp only [Option.some.injEq, Prod.mk.injEq] at h
          obtain ⟨h1, h2⟩ := h
          subst h1
          subst h2
          rw [totalOf_cons, totalOf_cons]
          have hx := ih rest2 oldr hrec t
          omega

theorem insert_swap_conserves (sel : Nat) (it1 : Item) (l : List InvEntry) (t : ItemType) :
    totalOf (insert_swap sel it1 l).2 t + optCount (insert_swap sel it1 l).1 t
      = totalOf l t + (if it1.type_ = t then it1.count else 0) := by
  unfold insert_swap
  cases hsw : swap_selected sel it1 l with
  | none => rfl
  | some p =>
    cases hp : p with
    | mk old l2 =>
      rw [hp] at hsw
      show totalOf l2 t + (if old.type_ = t then old.count else 0)
        = totalOf l t + (if it1.type_ = t then it1.count else 0)
      exact swap_selected_conserves sel it1 l l2 old hsw t

theorem insert_phase2_conserves (sel : Nat) (l : List InvEntry) (it1 : Item) (t : ItemType) :
    totalOf (insert_phase2 sel l it1).2 t + optCount (insert_phase2 sel l it1).1 t
      = totalOf l t + (if it1.type_ = t then it1.count else 0) := by
  unfold insert_phase2
  by_cases hfull : ¬ MAX_SLOTS ≤ l.length
  · rw [if_pos hfull]
    by_cases hsel : ¬ l.any (fun e => decide (e.index = sel))
    · rw [if_pos hsel]
      show totalOf (sort_by_index (l ++ [⟨sel, it1⟩])) t + 0
        = totalOf l t + (if it1.type_ = t then it1.count else 0)
      rw [totalOf_sort, totalOf_append_singleton]
      rfl
    · rw [if_neg hsel]
      cases hf : (List.range MAX_SLOTS).find? (fun i => ¬ l.any (fun e => decide (e.index = i))) with
      | some slot_index =>
        show totalOf (sort_by_index (l ++ [⟨slot_index, it1⟩])) t + 0
          = totalOf l t + (if it1.type_ = t then it1.count else 0)
        rw [totalOf_sort, totalOf_append_singleton]
        rfl
      | none => exact insert_swap_conserves sel it1 l t
  · rw [if_neg hfull]
    exact insert_swap_conserves sel it1 l t

theorem insert_after_stacking_conserves (sel : Nat) (l : List InvEntry) (it1 : Item)
    (done : Bool) (hdone : done = true → it1.count = 0) (t : ItemType) :
    totalOf (insert_after_stacking sel l it1 done).2 t
        + optCount (insert_after_stacking sel l it1 done).1 t
      = totalOf l t + (if it1.type_ = t then it1.count else 0) := by
  unfold insert_after_stacking
  cases done with
  | true =>
    rw [if_pos rfl]
    show totalOf l t + 0 = totalOf l t + (if it1.type_ = t then it1.count else 0)
    rw [hdone rfl]
    simp
  | false =>
    rw [if_neg (by exact Bool.false_ne_true)]
    exact insert_phase2_conserves sel l it1 t

/-- C7: Inventory::insert conserves quantity for stackable items, per item
type: the total count held in the inventory afterwards plus the count of
any returned item (swapped-out item or un-addable remainder) equals the
total held before plus the inserted count; in particular no quantity is
silently created or destroyed on any reachable path (stacking merge,
empty-slot placement, selected-slot swap, or the full-and-empty-selected
failsafe). -/
theorem c7_insert_conserves_quantity (inv : Inventory) (it : Item)
    (hstack : it.is_stackable = true) (t : ItemType) :
    totalOf (inv.insert it).2.entries t + optCount (inv.insert it).1 t
      = totalOf inv.entries t + (if it.type_ = t then it.count else 0) := by
  unfold Inventory.insert
  have hsr : stack_result inv it = stack_loop inv.entries it := by
    unfold stack_result
    rw [if_pos (by rw [hstack])]
  rw [hsr]
  show totalOf (insert_after_stacking inv.selected_index (stack_loop inv.entries it).1
        (stack_loop inv.entries it).2.1 (stack_loop inv.entries it).2.2).2 t
      + optCount (insert_after_stacking inv.selected_index (stack_loop inv.entries it).1
        (stack_loop inv.entries it).2.1 (stack_loop inv.entries it).2.2).1 t
    = totalOf inv.entries t + (if it.type_ = t then it.count else 0)
  have hdone : (stack_loop inv.entries it).2.2 = true → (stack_loop inv.entries it).2.1.count = 0 :=
    stack_loop_done_count inv.entries it
  have h1 := insert_after_stacking_conserves inv.selected_index (stack_loop inv.entries it).1
      (stack_loop inv.entries it).2.1 (stack_loop inv.entries it).2.2 hdone t
  have h2 := stack_loop_conserves inv.entries it t
  have htyp : (stack_loop inv.entries it).2.1.type_ = it.type_ := stack_loop_type inv.entries it
  by_cases ht : it.type_ = t
  · rw [if_pos (htyp.trans ht)] at h1
    rw [if_pos (htyp.trans ht), if_pos ht] at h2
    rw [if_pos ht]
    omega
  · rw [if_neg (fun hh => ht (htyp.symm.trans hh))] at h1
    rw [if_neg (fun hh => ht (htyp.symm.trans hh)), if_neg ht] at h2
    rw [if_neg ht]
    omega

/-- Witness for c7_insert_conserves_quantity: inserting 5 bandaids into an
inventory holding an 18/20 bandaid stack (2 merge, 3 go to a new slot)
conserves the bandaid total. -/
theorem c7_insert_conserves_quantity_witness :
    totalOf (Inventory.insert c7_inv bandaid_item5).2.entries ItemType.Bandaid
        + optCount (Inventory.insert c7_inv bandaid_item5).1 ItemType.Bandaid
      = totalOf c7_inv.entries ItemType.Bandaid
        + (if bandaid_item5.type_ = ItemType.Bandaid then bandaid_item5.count else 0) :=
  c7_insert_conserves_quantity c7_inv bandaid_item5 (by decide) ItemType.Bandaid

/-! ## The deferred-destruction sweep (C3) and the train-spawn grid gap (C2) -/

/-- Reading a cell only depends on the spatial grid. -/
theorem cellAt_grid_eq (s t : GState) (h : s.spatial_grid = t.spatial_grid) (x y : ℤ) :
    cellAt s x y = cellAt t x y := by
  unfold cellAt
  rw [h]

/-- getZ after updZ: the updated index reads through the update function,
every other index is unchanged. -/
theorem getZ_updZ (l : List α) (i j : ℤ) (f : α → α) :
    getZ (updZ l i f) j = if j = i then (getZ l j).map f else getZ l j := by
  simp only [getZ, updZ]
  by_cases hj : j < 0
  · simp [hj, ite_self]
  · simp only [if_neg hj]
    by_cases hij : j = i
    · subst hij
      rw [if_pos rfl, if_neg hj]
      exact updNat_getElem_self l j.toNat f
    · rw [if_neg hij]
      by_cases hi : i < 0
      · rw [if_pos hi]
      · rw [if_neg hi]
        exact updNat_getElem_ne l i.toNat f j.toNat (by omega)

/-- remove_entity_from_grid filters the handle out of exactly the cell at
the given position and leaves every other cell alone. -/
theorem cellAt_remove (s : GState) (vid : VID) (p : IVec2) (x y : ℤ) :
    cellAt (s.remove_entity_from_grid vid p) x y =
      if x = p.1 ∧ y = p.2 then
        (cellAt s x y).filter (fun v => decide (v ≠ vid))
      else cellAt s x y := by
  unfold cellAt GState.remove_entity_from_grid
  rw [getZ_updZ]
  by_cases hx : x = p.1
  · rw [if_pos hx]
    cases hcol : getZ s.spatial_grid x with
    | none => simp [getZ, ite_self]
    | some col =>
      simp only [Option.map_some', Option.getD_some]
      rw [getZ_updZ]
      by_cases hy : y = p.2
      · rw [if_pos hy, if_pos (And.intro hx hy)]
        cases hcell : getZ col y with
        | none => simp
        | some cell => simp
      · rw [if_neg hy, if_neg (fun hc => hy hc.2)]
  · rw [if_neg hx, if_neg (fun hc => hx hc.1)]

/-- Membership after a grid removal implies membership before (cells only
shrink). -/
theorem mem_cellAt_remove (s : GState) (vid w : VID) (p : IVec2) (x y : ℤ)
    (h : w ∈ cellAt (s.remove_entity_from_grid vid p) x y) : w ∈ cellAt s x y := by
  rw [cellAt_remove] at h
  by_cases hc : x = p.1 ∧ y = p.2
  · rw [if_pos hc] at h
    exact (List.mem_filter.mp h).1
  · rw [if_neg hc] at h
    exact h

/-- A sweep-one step changes the spatial grid exactly as the grid removal
does. -/
theorem sweep_one_grid (st : GState) (v : VID) (p : IVec2) :
    (sweep_one st v p).spatial_grid = (st.remove_entity_from_grid v p).spatial_grid := by
  unfold sweep_one
  dsimp only
  split
  · split <;> rfl
  · rfl

/-- A sweep-one step changes the entity store exactly as releasing the
handle does. -/
theorem sweep_one_em (st : GState) (v : VID) (p : IVec2) :
    (sweep_one st v p).entity_manager = st.entity_manager.set_inactive_vid v := by
  unfold sweep_one
  dsimp only
  split
  · split <;> rfl
  · rfl

/-- A sweep-one step either keeps the player handle or nulls it. -/
theorem sweep_one_player_cases (st : GState) (v : VID) (p : IVec2) :
    (sweep_one st v p).player_vid = st.player_vid ∨ (sweep_one st v p).player_vid = none := by
  unfold sweep_one
  dsimp only
  split
  · split
    · right; rfl
    · left; rfl
  · left; rfl

/-- After sweeping a handle, the player handle never equals that handle. -/
theorem sweep_one_player_self (st : GState) (v : VID) (p : IVec2) :
    (sweep_one st v p).player_vid ≠ some v := by
  unfold sweep_one
  dsimp only
  split
  next pv hpv =>
    split
    next h => simp
    next h =>
      rw [hpv]
      exact fun hh => h (Option.some.inj hh)
  next hpv =>
    rw [hpv]
    simp

/-- A sweep-one step keeps a null player handle null. -/
theorem sweep_one_player_none (st : GState) (v : VID) (p : IVec2)
    (h : st.player_vid = none) : (sweep_one st v p).player_vid = none := by
  rcases sweep_one_player_cases st v p with hc | hc
  · rw [hc, h]
  · exact hc

/-- The cleanup loop keeps a null player handle null. -/
theorem sweep_foldl_player_none (l : List (VID × IVec2)) (st : GState)
    (h : st.player_vid = none) :
    (l.foldl (fun st q => sweep_one st q.1 q.2) st).player_vid = none := by
  induction l generalizing st with
  | nil => exact h
  | cons q t ih =>
    rw [List.foldl_cons]
    exact ih _ (sweep_one_player_none st q.1 q.2 h)

/-- Sweeping the handle the player handle currently names nulls it. -/
theorem sweep_one_player_null_self (st : GState) (v : VID) (p : IVec2)
    (h : st.player_vid = some v) : (sweep_one st v p).player_vid = none := by
  unfold sweep_one
  dsimp only
  have hr : (st.remove_entity_from_grid v p).player_vid = st.player_vid := rfl
  split
  next pv hpv =>
    rw [hr, h] at hpv
    rw [if_pos (Option.some.inj hpv).symm]
  next hpv =>
    rw [hr, h] at hpv
    simp at hpv

/-- Along the cleanup loop the player handle can only keep naming the same
handle or become null. -/
theorem sweep_foldl_player_opts (l : List (VID × IVec2)) (st : GState) (vid : VID)
    (h : st.player_vid = some vid ∨ st.player_vid = none) :
    (l.foldl (fun st q => sweep_one st q.1 q.2) st).player_vid = some vid ∨
      (l.foldl (fun st q => sweep_one st q.1 q.2) st).player_vid = none := by
  induction l generalizing st with
  | nil => exact h
  | cons q t ih =>
    rw [List.foldl_cons]
    refine ih _ ?_
    rcases sweep_one_player_cases st q.1 q.2 with hc | hc
    · rw [hc]
      exact h
    · right
      exact hc

/-- Releasing a handle never removes ids from the free list. -/
theorem set_inactive_vid_avail_mem (m : EntityManager) (v : VID) (i : Nat)
    (h : i ∈ m.available_ids) : i ∈ (m.set_inactive_vid v).available_ids := by
  unfold EntityManager.set_inactive_vid
  split
  next e he =>
    split
    · exact List.mem_cons_of_mem _ h
    · exact h
  next => exact h

/-- A handle that does not resolve still does not resolve after any
release. -/
theorem set_inactive_vid_get_none (m : EntityManager) (v w : VID)
    (h : m.get_entity w = none) : (m.set_inactive_vid v).get_entity w = none := by
  unfold EntityManager.set_inactive_vid
  split
  next e he =>
    split
    next hcond =>
      unfold EntityManager.set_inactive EntityManager.get_entity
      by_cases hw : w.id = v.id
      · rw [hw, updNat_getElem_self, he]
        simp
      · rw [updNat_getElem_ne m.entities v.id _ w.id hw]
        exact h
    next => exact h
  next => exact h

/-- Releasing one slot leaves resolution through every other slot
unchanged. -/
theorem set_inactive_vid_get_ne (m : EntityManager) (v w : VID) (hw : w.id ≠ v.id) :
    (m.set_inactive_vid v).get_entity w = m.get_entity w := by
  unfold EntityManager.set_inactive_vid
  split
  next e he =>
    split
    next hcond =>
      unfold EntityManager.set_inactive EntityManager.get_entity
      rw [updNat_getElem_ne m.entities v.id _ w.id hw]
    next => rfl
  next => rfl

/-- Releasing a resolving handle makes it unresolvable and returns its id
to the free list. -/
theorem set_inactive_vid_self (m : EntityManager) (v : VID) (e : Entity)
    (he : m.get_entity v = some e) :
    (m.set_inactive_vid v).get_entity v = none ∧
      v.id ∈ (m.set_inactive_vid v).available_ids := by
  obtain ⟨hm, hver, hact⟩ := (get_entity_eq_some m v e).mp he
  have hset : m.set_inactive_vid v = m.set_inactive v.id := by
    unfold EntityManager.set_inactive_vid
    rw [hm]
    exact if_pos (And.intro hver (by rw [hact]))
  rw [hset]
  constructor
  · unfold EntityManager.set_inactive EntityManager.get_entity
    rw [updNat_getElem_self, hm]
    simp
  · show v.id ∈ v.id :: m.available_ids
    exact List.mem_cons_self _ _

/-- Once a handle is fully gone (no cell holds it, it does not resolve, its
id is free, the player handle differs from it), any further sweep-one step
keeps it gone. -/
theorem sweep_one_preserves_gone (st : GState) (v : VID) (p : IVec2) (vid : VID)
    (h1 : ∀ x y : ℤ, vid ∉ cellAt st x y)
    (h2 : st.entity_manager.get_entity vid = none)
    (h3 : vid.id ∈ st.entity_manager.available_ids)
    (h4 : st.player_vid ≠ some vid) :
    (∀ x y : ℤ, vid ∉ cellAt (sweep_one st v p) x y) ∧
      (sweep_one st v p).entity_manager.get_entity vid = none ∧
      vid.id ∈ (sweep_one st v p).entity_manager.available_ids ∧
      (sweep_one st v p).player_vid ≠ some vid := by
  refine ⟨?_, ?_, ?_, ?_⟩
  · intro x y hxy
    rw [cellAt_grid_eq _ _ (sweep_one_grid st v p) x y] at hxy
    exact h1 x y (mem_cellAt_remove st v vid p x y hxy)
  · rw [sweep_one_em]
    exact set_inactive_vid_get_none _ _ _ h2
  · rw [sweep_one_em]
    exact set_inactive_vid_avail_mem _ _ _ h3
  · rcases sweep_one_player_cases st v p with h | h <;> rw [h]
    · exact h4
    · simp

/-- Gone-ness is preserved by the whole cleanup loop. -/
theorem sweep_foldl_gone (l : List (VID × IVec2)) (st : GState) (vid : VID)
    (h1 : ∀ x y : ℤ, vid ∉ cellAt st x y)
    (h2 : st.entity_manager.get_entity vid = none)
    (h3 : vid.id ∈ st.entity_manager.available_ids)
    (h4 : st.player_vid ≠ some vid) :
    (∀ x y : ℤ, vid ∉ cellAt (l.foldl (fun st q => sweep_one st q.1 q.2) st) x y) ∧
      (l.foldl (fun st q => sweep_one st q.1 q.2) st).entity_manager.get_entity vid = none ∧
      vid.id ∈ (l.foldl (fun st q => sweep_one st q.1 q.2) st).entity_manager.available_ids ∧
      (l.foldl (fun st q => sweep_one st q.1 q.2) st).player_vid ≠ some vid := by
  induction l generalizing st with
  | nil => exact ⟨h1, h2, h3, h4⟩
  | cons q t ih =>
    rw [List.foldl_cons]
    obtain ⟨g1, g2, g3, g4⟩ := sweep_one_preserves_gone st q.1 q.2 vid h1 h2 h3 h4
    exact ih _ g1 g2 g3 g4

/-- Handle resolution is untouched by cleanup steps for other slot ids. -/
theorem sweep_foldl_get (l : List (VID × IVec2)) (st : GState) (vid : VID)
    (hids : ∀ q ∈ l, q.1.id ≠ vid.id) :
    (l.foldl (fun st q => sweep_one st q.1 q.2) st).entity_manager.get_entity vid =
      st.entity_manager.get_entity vid := by
  induction l generalizing st with
  | nil => rfl
  | cons q t ih =>
    rw [List.foldl_cons, ih _ (fun r hr => hids r (List.mem_cons_of_mem _ hr))]
    rw [sweep_one_em]
    exact set_inactive_vid_get_ne _ _ _ (hids q (List.mem_cons_self _ _)).symm

/-- Locality of a handle (it sits at most in one known cell) is preserved
by the cleanup loop, since cells only shrink. -/
theorem sweep_foldl_loc (l : List (VID × IVec2)) (st : GState) (vid : VID) (p : IVec2)
    (hloc : ∀ x y : ℤ, vid ∈ cellAt st x y → (x, y) = p) :
    ∀ x y : ℤ,
      vid ∈ cellAt (l.foldl (fun st q => sweep_one st q.1 q.2) st) x y → (x, y) = p := by
  induction l generalizing st with
  | nil => exact hloc
  | cons q t ih =>
    rw [List.foldl_cons]
    refine ih _ ?_
    intro x y hxy
    apply hloc
    rw [cellAt_grid_eq _ _ (sweep_one_grid st q.1 q.2) x y] at hxy
    exact mem_cellAt_remove st q.1 vid q.2 x y hxy

/-- Sweeping a resolving, grid-local handle makes it fully gone. -/
theorem sweep_one_establishes (st : GState) (vid : VID) (e0 : Entity) (p : IVec2)
    (hres : st.entity_manager.get_entity vid = some e0)
    (hloc : ∀ x y : ℤ, vid ∈ cellAt st x y → (x, y) = p) :
    (∀ x y : ℤ, vid ∉ cellAt (sweep_one st vid p) x y) ∧
      (sweep_one st vid p).entity_manager.get_entity vid = none ∧
      vid.id ∈ (sweep_one st vid p).entity_manager.available_ids ∧
      (sweep_one st vid p).player_vid ≠ some vid := by
  obtain ⟨hg, ha⟩ := set_inactive_vid_self st.entity_manager vid e0 hres
  refine ⟨?_, ?_, ?_, sweep_one_player_self st vid p⟩
  · intro x y hxy
    rw [cellAt_grid_eq _ _ (sweep_one_grid st vid p) x y] at hxy
    rw [cellAt_remove] at hxy
    by_cases hxp : x = p.1 ∧ y = p.2
    · rw [if_pos hxp] at hxy
      have hfa := (List.mem_filter.mp hxy).2
      simp at hfa
    · rw [if_neg hxp] at hxy
      exact hxp (Prod.ext_iff.mp (hloc x y hxy))
  · rw [sweep_one_em]
    exact hg
  · rw [sweep_one_em]
    exact ha

/-- In a store whose slots record their own index, the listed ids are
exactly the consecutive indices. -/
theorem map_ids_eq_range' (l : List Entity) (k : Nat)
    (h : ∀ i ent, l[i]? = some ent → ent.vid.id = k + i) :
    l.map (fun en => en.vid.id) = List.range' k l.length := by
  induction l generalizing k with
  | nil => rfl
  | cons a t ih =>
    have ha : a.vid.id = k := by
      have h0 := h 0 a (by simp)
      omega
    have ht : ∀ i ent, t[i]? = some ent → ent.vid.id = (k + 1) + i := by
      intro i ent hi
      have hs := h (i + 1) ent (by simpa using hi)
      omega
    rw [List.map_cons, ih (k + 1) ht, ha]
    rfl

/-- C3: in a well-formed store (each slot's recorded handle id is its own
index) holding an entity that is active and marked for destruction, and
whose handle appears in the spatial grid at most in the cell of its
truncated position, the deferred-destruction sweep at the end of the tick
removes the handle from every spatial-grid cell, makes it unresolvable in
the entity store, returns its slot id to the free list, leaves the stored
player handle different from it, and — when the destroyed entity was the
player — sets the stored player handle to none. -/
theorem c3_deferred_destruction_sweep (s : GState) (e : Entity)
    (hwf : ∀ (i : Nat) (ent : Entity), s.entity_manager.entities[i]? = some ent → ent.vid.id = i)
    (hmem : e ∈ s.entity_manager.entities)
    (hmark : e.marked_for_destruction = true)
    (hact : e.active = true)
    (hloc : ∀ x y : ℤ, e.vid ∈ cellAt s x y → (x, y) = truncV e.pos) :
    (∀ x y : ℤ, e.vid ∉ cellAt (sweep_phase s) x y) ∧
      (sweep_phase s).entity_manager.get_entity e.vid = none ∧
      e.vid.id ∈ (sweep_phase s).entity_manager.available_ids ∧
      (sweep_phase s).player_vid ≠ some e.vid ∧
      (s.player_vid = some e.vid → (sweep_phase s).player_vid = none) := by
  have hidx : s.entity_manager.entities[e.vid.id]? = some e := by
    obtain ⟨i, hi⟩ := List.mem_iff_getElem?.mp hmem
    rw [hwf i e hi]
    exact hi
  have hres : s.entity_manager.get_entity e.vid = some e :=
    (get_entity_eq_some _ _ _).mpr ⟨hidx, rfl, hact⟩
  have hwf0 : ∀ (i : Nat) (ent : Entity), s.entity_manager.entities[i]? = some ent → ent.vid.id = 0 + i := by
    intro i ent hi
    have hh := hwf i ent hi
    omega
  have hnodup : (s.entity_manager.entities.map (fun en => en.vid.id)).Nodup := by
    rw [map_ids_eq_range' s.entity_manager.entities 0 hwf0]
    exact List.nodup_range' 0 _
  have hnodupF : ((s.entity_manager.entities.filter
      (fun en => en.marked_for_destruction && en.active)).map (fun en => en.vid.id)).Nodup :=
    List.Nodup.sublist ((List.filter_sublist _).map _) hnodup
  have hmemF : e ∈ s.entity_manager.entities.filter
      (fun en => en.marked_for_destruction && en.active) :=
    List.mem_filter.mpr ⟨hmem, by simp [hmark, hact]⟩
  have hmemL : (e.vid, truncV e.pos) ∈ (s.entity_manager.entities.filter
      (fun en => en.marked_for_destruction && en.active)).map
      (fun en => (en.vid, truncV en.pos)) :=
    List.mem_map_of_mem _ hmemF
  obtain ⟨l1, l2, hsplit⟩ := List.append_of_mem hmemL
  have hnodupL : (((s.entity_manager.entities.filter
      (fun en => en.marked_for_destruction && en.active)).map
      (fun en => (en.vid, truncV en.pos))).map (fun q => q.1.id)).Nodup := by
    rw [List.map_map]
    exact hnodupF
  rw [hsplit, List.map_append, List.map_cons] at hnodupL
  obtain ⟨hn1, hn2, hdisj⟩ := List.nodup_append.mp hnodupL
  have hids1 : ∀ q ∈ l1, q.1.id ≠ e.vid.id := by
    intro q hq hh
    exact hdisj (List.mem_map_of_mem _ hq) (by rw [hh]; exact List.mem_cons_self _ _)
  have hsweep : sweep_phase s = (l1 ++ (e.vid, truncV e.pos) :: l2).foldl
      (fun st q => sweep_one st q.1 q.2) s := by
    show ((s.entity_manager.entities.filter
        (fun en => en.marked_for_destruction && en.active)).map
        (fun en => (en.vid, truncV en.pos))).foldl (fun st q => sweep_one st q.1 q.2) s = _
    rw [hsplit]
  rw [hsweep, List.foldl_append, List.foldl_cons]
  have hget1 : (l1.foldl (fun st q => sweep_one st q.1 q.2) s).entity_manager.get_entity e.vid
      = some e := by
    rw [sweep_foldl_get l1 s e.vid hids1]
    exact hres
  have hloc1 := sweep_foldl_loc l1 s e.vid (truncV e.pos) hloc
  have hplayer1 : s.player_vid = some e.vid →
      (l1.foldl (fun st q => sweep_one st q.1 q.2) s).player_vid = some e.vid ∨
      (l1.foldl (fun st q => sweep_one st q.1 q.2) s).player_vid = none :=
    fun hps => sweep_foldl_player_opts l1 s e.vid (Or.inl hps)
  generalize hst1 : l1.foldl (fun st q => sweep_one st q.1 q.2) s = st1
    at hget1 hloc1 hplayer1 ⊢
  obtain ⟨g1, g2, g3, g4⟩ := sweep_one_establishes st1 e.vid e (truncV e.pos) hget1 hloc1
  obtain ⟨f1, f2, f3, f4⟩ := sweep_foldl_gone l2 _ e.vid g1 g2 g3 g4
  refine ⟨f1, f2, f3, f4, ?_⟩
  intro hps
  rcases hplayer1 hps with h1 | h1
  · exact sweep_foldl_player_none l2 _ (sweep_one_player_null_self st1 e.vid (truncV e.pos) h1)
  · exact sweep_foldl_player_none l2 _ (sweep_one_player_none st1 e.vid (truncV e.pos) h1)

/-- Witness for c3_deferred_destruction_sweep: sweeping the marked player
of the concrete one-tile world removes its handle from every cell, makes
it unresolvable, frees slot 0, and — since it was the player — sets the
stored player handle to none. -/
theorem c3_deferred_destruction_sweep_witness :
    (∀ x y : ℤ, c3_marked.vid ∉ cellAt (sweep_phase c3_state) x y) ∧
      (sweep_phase c3_state).entity_manager.get_entity c3_marked.vid = none ∧
      c3_marked.vid.id ∈ (sweep_phase c3_state).entity_manager.available_ids ∧
      (sweep_phase c3_state).player_vid ≠ some c3_marked.vid ∧
      (c3_state.player_vid = some c3_marked.vid → (sweep_phase c3_state).player_vid = none) :=
  c3_deferred_destruction_sweep c3_state c3_marked
    (by
      intro i ent h
      cases i with
      | zero =>
        have he : c3_marked = ent := by simpa [c3_state] using h
        rw [← he]
        rfl
      | succ n => simp [c3_state] at h)
    (by simp [c3_state])
    (by rfl)
    (by rfl)
    (by
      intro x y hxy
      by_cases hy : y < 0
      · simp [cellAt, getZ, hy] at hxy
      · by_cases hx : x < 0
        · simp [cellAt, getZ, hx, hy, c3_state] at hxy
        · cases hm : x.toNat with
          | zero =>
            cases hn : y.toNat with
            | zero =>
              have hxv : x = 0 := by omega
              have hyv : y = 0 := by omega
              have hp : truncV c3_marked.pos = ((0 : ℤ), (0 : ℤ)) := by decide
              rw [hxv, hyv, hp]
            | succ n => simp [cellAt, getZ, hx, hy, hm, hn, c3_state] at hxy
          | succ n => simp [cellAt, getZ, hx, hy, hm, c3_state] at hxy)

/-- C2 (refuted): the grid/entity consistency property from the spec holds
of the concrete pre-step train world c2_state, but a single step of its
train head spawns a successor car — handle ⟨1, 1⟩, an active, impassable
Train at position (1/2, 1/2) — without a matching add_entity_to_grid call,
so after the step the new handle sits in no spatial-grid cell and the
property is false: the spatial index misses an active impassable entity at
the end of the tick. -/
theorem c2_spawned_train_car_missing_from_grid :
    spec_grid_invariant c2_state = true ∧
    spec_grid_invariant (step_train c2_state ⟨0, 1⟩ (mkRat 0 1)) = false ∧
    ((step_train c2_state ⟨0, 1⟩ (mkRat 0 1)).entity_manager.get_entity ⟨1, 1⟩).map
        (fun e => (e.active, e.impassable, e.type_, e.pos)) =
      some (true, true, EntityType.Train, (mkRat 1 2, mkRat 1 2)) ∧
    (List.range 4).all (fun x =>
      (cellAt (step_train c2_state ⟨0, 1⟩ (mkRat 0 1)) (x : ℤ) 0).all
        (fun w => decide (w ≠ ⟨1, 1⟩))) = true := by
  decide
